import Mathlib

/-!
Verification of the Property Pattern Registry & Quality-Based Disambiguation
Engine of the Movie-name-extractor repository
(`src/guessit/transfo/guess_properties.py`).

The single source file under `src/` contains the orchestrator
`GuessProperties.__init__` (the domain tables and the registration calls),
its nested helpers `register_property` / `register_quality`, the derived
pattern composition loops, and the thin delegating methods
`guess_properties` / `rate_quality` / `supported_properties`.
Those parts are translated here from the source, including Python dict
literal semantics (duplicate keys: last value wins, first position kept) and
Python iteration over a bare string (per-character).

`PropertiesContainer`, the validators and `QualitiesContainer` live in
`guessit/patterns/containers.py` and `guessit/quality.py`, which are not part
of `src/`; they are modelled from the specification (sections 4.1, 4.2, 4.3
of the design document).  Each such definition carries a doc comment starting
with `Modelled from the spec:`.
-/

/-! ## Characters

Characters are handled as their Unicode code points (`Nat`), produced once
per string by `String.data`; all matching and boundary logic below works on
these code-point lists. -/

/-- Lower-case an ASCII letter code point; other code points unchanged.
Matching in the modelled container is case-insensitive (spec section
4.1). -/
def lcN (n : Nat) : Nat :=
  if 65 ≤ n ∧ n ≤ 90 then n + 32 else n

/-- ASCII alphanumeric test on a code point, used by the boundary
validators. -/
def isAlnumN (n : Nat) : Bool :=
  (97 ≤ n ∧ n ≤ 122) ∨ (65 ≤ n ∧ n ≤ 90) ∨ (48 ≤ n ∧ n ≤ 57)

/-- Regex word character (alphanumeric or underscore, code 95). -/
def isWordN (n : Nat) : Bool :=
  isAlnumN n ∨ n = 95

/-- ASCII digit test on a code point. -/
def isDigitN (n : Nat) : Bool :=
  48 ≤ n ∧ n ≤ 57

/-- The lower-cased code-point list of a string. -/
def lcList (s : String) : List Nat :=
  s.data.map (fun c => lcN c.toNat)

/-- The raw code-point list of a string. -/
def codes (s : String) : List Nat :=
  s.data.map (fun c => c.toNat)

/-! ## Regular expressions

A small executable regular-expression engine covering exactly the dialect
used by the pattern sources of the domain table: literals, `.`, character
classes (with `\W` and literal members), escapes `\d` `\W` `\\` `\/` `\*`,
groups `(...)` and `(?:...)`, alternation `|`, quantifiers `?`, `\x7bn\x7d`
and `\x7bn,\x7d`.

Following the spec (round-trip of `"HDTV"` against pattern `"HD-TV"`, and the
derived-pattern adjacency property: `"h264-10bit"` matches the compound built
from base `"[hx]-264..."` while the space-separated `"h264 10bit"` does not),
a `-` in a pattern source is compiled to an *optional separator*: one
optional character among `-`, `.`, `_` (not a space). -/

inductive Rx where
  | emp : Rx
  | eps : Rx
  | chr : Nat → Rx
  | cls : List Nat → Bool → Rx
  | digit : Rx
  | nonword : Rx
  | wild : Rx
  | seq : Rx → Rx → Rx
  | alt : Rx → Rx → Rx
  | star : Rx → Rx
deriving DecidableEq, Repr

/-- Is this the empty (never-matching) regex constructor? -/
def Rx.isEmp : Rx → Bool
  | .emp => true
  | _ => false

/-- Smart sequencing: absorbs `emp` and drops `eps`. -/
def mkSeq (a b : Rx) : Rx :=
  match a, b with
  | .emp, _ => .emp
  | _, .emp => .emp
  | .eps, b => b
  | a, .eps => a
  | a, b => .seq a b

/-- Smart alternation: absorbs `emp`. -/
def mkAlt (a b : Rx) : Rx :=
  match a, b with
  | .emp, b => b
  | a, .emp => a
  | a, b => .alt a b

/-- Optional occurrence, as an alternation with the empty string. -/
def mkOpt (a : Rx) : Rx :=
  mkAlt a .eps

/-- Does the regex accept the empty string? -/
def Rx.nullable : Rx → Bool
  | .emp => false
  | .eps => true
  | .chr _ => false
  | .cls _ _ => false
  | .digit => false
  | .nonword => false
  | .wild => false
  | .seq a b => a.nullable ∧ b.nullable
  | .alt a b => a.nullable ∨ b.nullable
  | .star _ => true

/-- Brzozowski derivative with respect to one (lower-cased) code point. -/
def Rx.deriv : Rx → Nat → Rx
  | .emp, _ => .emp
  | .eps, _ => .emp
  | .chr c, a => if a = c then .eps else .emp
  | .cls l w, a => if l.contains a ∨ (w ∧ ¬ isWordN a) then .eps else .emp
  | .digit, a => if isDigitN a then .eps else .emp
  | .nonword, a => if ¬ isWordN a then .eps else .emp
  | .wild, _ => .eps
  | .seq a b, c =>
      if a.nullable then mkAlt (mkSeq (a.deriv c) b) (b.deriv c)
      else mkSeq (a.deriv c) b
  | .alt a b, c => mkAlt (a.deriv c) (b.deriv c)
  | .star a, c => mkSeq (a.deriv c) (.star a)

/-- All offsets `j` such that the regex matches the prefix of `cs` ending at
absolute position `j`, where `i` is the absolute position of the head of
`cs`.  Walks the code-point list once, taking derivatives. -/
def endsFrom : Rx → List Nat → Nat → List Nat
  | .emp, _, _ => []
  | r, [], i => if r.nullable then [i] else []
  | r, c :: cs, i =>
      (if r.nullable then [i] else []) ++ endsFrom (r.deriv c) cs (i + 1)

/-- All non-empty spans `(i, j)` of the code-point list matched by the
regex. -/
def rxSpans (r : Rx) (cs : List Nat) : List (Nat × Nat) :=
  (List.range cs.length).flatMap fun i =>
    (endsFrom r (cs.drop i) i).filterMap fun j =>
      if i < j then some (i, j) else none

/-- The optional-separator atom a `-` in a pattern source compiles to:
one optional code point among `-` 45, `.` 46, `_` 95. -/
def sepRx : Rx :=
  mkOpt (.cls [45, 46, 95] false)

/-! ### Parser for the pattern dialect (fuel-indexed, total)

Code-point legend for the dialect: `(` 40, `)` 41, `*` 42, `,` 44, `-` 45,
`.` 46, `/` 47, `0` 48, `9` 57, `:` 58, `?` 63, `W` 87, `[` 91, `\` 92,
`]` 93, `\x7b` 123, `|` 124, `\x7d` 125, `d` 100. -/

/-- Parse the body of a character class up to the closing bracket `]` 93,
returning the literal members (lower-cased), whether `\W` occurred, and the
rest. -/
def parseClsBody : Nat → List Nat → Option (List Nat × Bool × List Nat)
  | 0, _ => none
  | _ + 1, [] => none
  | f + 1, c :: cs =>
    if c = 93 then some ([], false, cs)
    else if c = 92 then
      match cs with
      | [] => none
      | c2 :: cs2 =>
        if c2 = 87 then do
          let (l, _, rest) ← parseClsBody f cs2
          some (l, true, rest)
        else do
          let (l, w, rest) ← parseClsBody f cs2
          some (lcN c2 :: l, w, rest)
    else do
      let (l, w, rest) ← parseClsBody f cs
      some (lcN c :: l, w, rest)

/-- Read a decimal number (code points 48-57). -/
def parseNumAux : List Nat → Nat → Option (Nat × List Nat)
  | [], _ => none
  | c :: cs, acc =>
    if isDigitN c then
      match parseNumAux cs (acc * 10 + (c - 48)) with
      | some r => some r
      | none => some (acc * 10 + (c - 48), cs)
    else if acc = 0 then none else some (acc, c :: cs)

/-- Repetition: the regex `r` exactly `n` times, followed by `tail`. -/
def seqN : Nat → Rx → Rx → Rx
  | 0, _, tail => tail
  | n + 1, r, tail => mkSeq r (seqN n r tail)

mutual

/-- Parse an alternation (`a|b|...`, `|` is 124). -/
def parseAltRx : Nat → List Nat → Option (Rx × List Nat)
  | 0, _ => none
  | f + 1, cs => do
    let (r, rest) ← parseSeqRx f cs
    match rest with
    | 124 :: rest2 => do
        let (r2, rest3) ← parseAltRx f rest2
        some (mkAlt r r2, rest3)
    | _ => some (r, rest)

/-- Parse a sequence of quantified atoms, stopping at `)` 41 or `|` 124. -/
def parseSeqRx : Nat → List Nat → Option (Rx × List Nat)
  | 0, _ => none
  | f + 1, cs =>
    match cs with
    | [] => some (.eps, [])
    | 41 :: _ => some (.eps, cs)
    | 124 :: _ => some (.eps, cs)
    | _ => do
      let (a, rest) ← parseAtomRx f cs
      let (a2, rest2) ← parseQuantRx f a rest
      let (b, rest3) ← parseSeqRx f rest2
      some (mkSeq a2 b, rest3)

/-- Parse postfix quantifiers after an atom: `?` 63, or a brace 123 with a
number, an optional comma 44, and a closing brace 125. -/
def parseQuantRx : Nat → Rx → List Nat → Option (Rx × List Nat)
  | 0, _, _ => none
  | f + 1, r, cs =>
    match cs with
    | 63 :: rest => parseQuantRx f (mkOpt r) rest
    | 123 :: rest => do
        let (n, rest2) ← parseNumAux rest 0
        match rest2 with
        | 125 :: rest3 => parseQuantRx f (seqN n r .eps) rest3
        | 44 :: 125 :: rest3 => parseQuantRx f (seqN n r (.star r)) rest3
        | _ => none
    | _ => some (r, cs)

/-- Parse one atom: group `(` 40 (optionally non-capturing `?:` 63 58),
class `[` 91, escape `\` 92 (`d` 100 digits, `W` 87 non-word, else the
escaped literal), wildcard `.` 46, separator `-` 45, or a literal. -/
def parseAtomRx : Nat → List Nat → Option (Rx × List Nat)
  | 0, _ => none
  | f + 1, cs =>
    match cs with
    | [] => none
    | 40 :: rest =>
      let rest2 := match rest with
        | 63 :: 58 :: t => t
        | _ => rest
      match parseAltRx f rest2 with
      | some (r, 41 :: rest3) => some (r, rest3)
      | _ => none
    | 91 :: rest => do
        let (l, w, rest2) ← parseClsBody f rest
        some (.cls l w, rest2)
    | 92 :: c :: rest =>
        if c = 100 then some (.digit, rest)
        else if c = 87 then some (.nonword, rest)
        else some (.chr (lcN c), rest)
    | 46 :: rest => some (.wild, rest)
    | 45 :: rest => some (sepRx, rest)
    | c :: rest =>
        if c = 41 ∨ c = 124 ∨ c = 63 ∨ c = 42 ∨ c = 123 ∨ c = 125 ∨ c = 92
        then none
        else some (.chr (lcN c), rest)

end

/-- Compile a pattern source to a regex; `none` models `InvalidPatternError`
(spec section 4.1: compilation failure is fatal at build time). -/
def parseRx (s : String) : Option Rx :=
  match parseAltRx (4 * s.length + 8) (codes s) with
  | some (r, []) => some r
  | _ => none

/-! ## Validators and pattern entries (modelled from the spec) -/

/-- Modelled from the spec: the minimum matched length above which the weak
validator (from `guessit/patterns/containers.py`, not under `src/`) accepts a
hit with one alphanumeric boundary; the spec calls it "the configured
minimum" without fixing a value, and every canonical token registered with
the weak validator has length at least four. -/
def weakMinLen : Nat := 3

/-- The character immediately before span start `i` is absent (start of the
text) or non-alphanumeric. -/
def leftBoundaryOk (cs : List Nat) (i : Nat) : Bool :=
  i = 0 ∨ ¬ isAlnumN (cs.getD (i - 1) 32)

/-- The character immediately after span end `j` is absent (end of the text)
or non-alphanumeric. -/
def rightBoundaryOk (cs : List Nat) (j : Nat) : Bool :=
  j = cs.length ∨ ¬ isAlnumN (cs.getD j 32)

/-- Modelled from the spec: the strict boundary validator of
`guessit/patterns/containers.py` (not under `src/`), spec section 4.2: a hit
is accepted only if the characters immediately preceding and following the
matched span are absent or non-alphanumeric. -/
def strictValidate (cs : List Nat) (i j : Nat) : Bool :=
  leftBoundaryOk cs i ∧ rightBoundaryOk cs j

/-- Modelled from the spec: the weak validator (`WeakValidator` of
`guessit/patterns/containers.py`, not under `src/`), spec section 4.2: a hit
is accepted even when one side's boundary is alphanumeric, provided the
matched token length exceeds the minimum threshold. -/
def weakValidate (cs : List Nat) (i j : Nat) : Bool :=
  strictValidate cs i j ∨
  ((leftBoundaryOk cs i ∨ rightBoundaryOk cs j) ∧ weakMinLen < j - i)

/-- Modelled from the spec: a `PatternEntry` (spec section 3): one pattern
source bound to a property category, a canonical output value, a confidence
weight and a validator (`weak = false` is the default strict validator).
Confidence is measured in tenths of the source's float value: the default
`1.0` is `10`, the `0.2` override of the source is `2`; the source uses only
these two values, on which the tenths scale is exact and order-faithful. -/
structure PatternEntry where
  category : String
  pattern : String
  canonical : String
  conf : Nat
  weak : Bool
deriving DecidableEq, Repr

/-- Modelled from the spec: the `PropertiesContainer` of
`guessit/patterns/containers.py` (not under `src/`) owns the ordered
collection of `PatternEntry` values; registration order is preserved
(spec section 4.1), so the whole container is one ordered list. -/
abbrev Container := List PatternEntry

/-- Modelled from the spec: `PropertiesContainer.register_property`
(spec section 4.1) — register one pattern source under a category with a
canonical form, confidence and validator, appending in registration order. -/
def regProp (c : Container) (cat pat canon : String) (conf : Nat) (wk : Bool) :
    Container :=
  List.append c [⟨cat, pat, canon, conf, wk⟩]

/-- Modelled from the spec: `PropertiesContainer.get_properties(category)` —
the ordered collection of entries of one category. -/
def getProps (c : Container) (cat : String) : List PatternEntry :=
  c.filter (fun e => e.category = cat)

/-- Modelled from the spec: `PropertiesContainer.get_properties(category,
canonical_form)` — entries of one category filtered by canonical form. -/
def getPropsCanon (c : Container) (cat canon : String) : List PatternEntry :=
  c.filter (fun e => e.category = cat ∧ e.canonical = canon)

/-- One surviving raw hit of `find_properties`: canonical form, confidence
and matched span. -/
structure Hit where
  canon : String
  conf : Nat
  left : Nat
  right : Nat
deriving DecidableEq, Repr

/-- Span overlap of two hits. -/
def hitsOverlap (a b : Hit) : Bool :=
  a.left < b.right ∧ b.left < a.right

/-- Modelled from the spec: the raw hits of one `PatternEntry` on a text
(spec section 4.1 `find_properties`): every span matched by the compiled
pattern, filtered by the entry's validator; an uncompilable pattern
contributes nothing (compilation failure is fatal at build time and the
built table is proved to compile). -/
def entryHits (e : PatternEntry) (cs : List Nat) : List Hit :=
  match parseRx e.pattern with
  | none => []
  | some r =>
      (rxSpans r cs).filterMap fun s =>
        if (if e.weak then weakValidate cs s.1 s.2 else strictValidate cs s.1 s.2) then
          some ⟨e.canonical, e.conf, s.1, s.2⟩
        else none

/-- Modelled from the spec: the surviving hits of one category on a text, in
registration order and then position order. -/
def hitsFor (c : Container) (cat : String) (s : String) : List Hit :=
  (getProps c cat).flatMap (fun e => entryHits e (lcList s))

/-- First hit with strictly maximal confidence (earlier hit wins ties). -/
def pickBest : Hit → List Hit → Hit
  | best, [] => best
  | best, h :: t => pickBest (if best.conf < h.conf then h else best) t

/-- Modelled from the spec: within-category overlap resolution
(spec section 4.1): among overlapping surviving hits retain the one with
higher confidence, ties broken by registration order.  Implemented by
repeatedly selecting the best remaining hit and discarding the hits that
overlap it; the fuel argument is the initial number of hits. -/
def resolveAux : Nat → List Hit → List Hit
  | 0, _ => []
  | _ + 1, [] => []
  | f + 1, h :: t =>
      let b := pickBest h t
      b :: resolveAux f ((h :: t).filter (fun x => ¬ hitsOverlap x b))

/-- Overlap resolution at full fuel. -/
def resolveHits (hs : List Hit) : List Hit :=
  resolveAux hs.length hs

/-- Modelled from the spec: the guess synthesised for one category
(`find_properties` followed by `as_guess`, spec section 4.1): the resolved
hits of the category as `(category, canonical_form, confidence)` triples,
the confidence being the contributing entry's confidence, not reduced or
boosted. -/
def guessForIn (c : Container) (cat : String) (s : String) :
    List (String × String × Nat) :=
  (resolveHits (hitsFor c cat s)).map (fun h => (cat, h.canon, h.conf))

/-- The categories known to a container, in first-registration order. -/
def containerCats (c : Container) : List String :=
  (c.map (fun e => e.category)).dedup

/-- Modelled from the spec: `guess_properties(text)` — `find_properties`
over every registered entry followed by `as_guess`; overlap resolution is
per category, overlapping spans of different categories are both retained
(spec section 4.1). -/
def guessPropertiesIn (c : Container) (s : String) :
    List (String × String × Nat) :=
  (containerCats c).flatMap (fun cat => guessForIn c cat s)

/-! ## Qualities container (modelled from the spec) -/

/-- One quality entry: category, canonical form, integer score. -/
abbrev QEntry := String × String × Int

/-- The key predicate of the qualities container: does an entry carry the
key `(cat, canon)`? -/
def qKey (cat canon : String) (e : QEntry) : Bool :=
  e.1 = cat ∧ e.2.1 = canon

/-- Modelled from the spec: `QualitiesContainer.register_quality`
(`guessit/quality.py`, not under `src/`; spec section 4.3): upsert the entry
for the key `(category, canonical_form)`, overwriting any prior value. -/
def registerQualityQ (q : List QEntry) (cat canon : String) (sc : Int) :
    List QEntry :=
  if q.any (qKey cat canon) then
    q.map (fun e => if qKey cat canon e then (cat, canon, sc) else e)
  else List.append q [(cat, canon, sc)]

/-- Score lookup by key. -/
def qLookup (q : List QEntry) (cat canon : String) : Option Int :=
  (q.find? (qKey cat canon)).map (fun e => e.2.2)

/-- Number of entries stored for a key. -/
def qCount (q : List QEntry) (cat canon : String) : Nat :=
  q.countP (qKey cat canon)

/-- Modelled from the spec: `QualitiesContainer.rate_quality(guess,
*categories)` (spec section 4.3): for each category named — or all
categories present on the guess if none are named — look up
`(category, guess[category])`; fail with `UnknownQualityError` exactly when
an explicitly requested category has a guessed value with no registered
score; silently skip categories absent from the guess; return the sum of
the looked-up scores. -/
def rateQualityQ (q : List QEntry) (guess : List (String × String))
    (props : List String) : Except Unit Int :=
  let explicit : Bool := ¬ props = []
  let cats := if props = [] then guess.map (fun g => g.1) else props
  cats.foldlM
    (fun acc cat =>
      match (guess.find? (fun g => g.1 = cat)).map (fun g => g.2) with
      | none => Except.ok acc
      | some v =>
        match qLookup q cat v with
        | none => if explicit then Except.error () else Except.ok acc
        | some sc => Except.ok (acc + sc))
    0

/-! ## Python literal semantics -/

/-- Insert one key-value pair with Python dict-literal semantics: if the key
is already present, the stored value is replaced in place (last value wins,
first position kept); otherwise the pair is appended. -/
def pyDictIns (acc : List (String × α)) (kv : String × α) :
    List (String × α) :=
  if acc.any (fun e => e.1 = kv.1) then
    acc.map (fun e => if e.1 = kv.1 then kv else e)
  else List.append acc [kv]

/-- A Python dict literal built from its written entries in order. -/
def pyDict (l : List (String × α)) : List (String × α) :=
  l.foldl pyDictIns []

/-- A value of a property dict in the source: either a plain list of pattern
sources, or (a list of pattern sources, keyword arguments carrying a
confidence override, in tenths) as in `(['TS'], \x7b'confidence': 0.2\x7d)`. -/
inductive PropVal where
  | pats : List String → PropVal
  | patsConf : List String → Nat → PropVal
deriving DecidableEq, Repr

/-- A profile-variants value in the source: either a Python tuple of pattern
sources, or a bare string — which Python iterates character by character, as
in the `'Hi444PP'` entry of `_videoProfiles`. -/
inductive PyStrs where
  | tup : List String → PyStrs
  | strv : String → PyStrs
deriving DecidableEq, Repr

/-- Iteration of a `for` loop over a `PyStrs` value: a tuple yields its
elements, a bare string yields its one-character substrings. -/
def iterVariants : PyStrs → List String
  | .tup l => l
  | .strv s => s.data.map (fun ch => String.singleton ch)

/-- The nested `register_property(propname, props)` helper of
`GuessProperties.__init__` (source lines 37-47): for each canonical form of
the dict, register every pattern source, with the confidence override when
the value is a (patterns, kwargs) tuple. -/
def regPropsDict (c : Container) (propname : String)
    (props : List (String × PropVal)) : Container :=
  (pyDict props).foldl
    (fun acc kv =>
      match kv.2 with
      | .pats ps => ps.foldl (fun a p => regProp a propname p kv.1 10 false) acc
      | .patsConf ps cf =>
          ps.foldl (fun a p => regProp a propname p kv.1 cf false) acc)
    c

/-- Modelled from the spec:
`PropertiesContainer.register_canonical_properties` (spec section 4.1, the
container is in `guessit/patterns/containers.py`, not under `src/`): for each
canonical form, register an identity pattern matching the literal canonical
form case-insensitively, under the given validator. -/
def regCanonical (c : Container) (cat : String) (canons : List String)
    (wk : Bool) : Container :=
  canons.foldl (fun a cf => regProp a cat cf cf 10 wk) c

/-- The nested `register_quality(propname, quality_dict)` helper of
`GuessProperties.__init__` (source lines 49-52). -/
def regQualDict (q : List QEntry) (propname : String)
    (qd : List (String × Int)) : List QEntry :=
  (pyDict qd).foldl (fun a kv => registerQualityQ a propname kv.1 kv.2) q

/-! ## The domain tables (source lines 54-229, translated literally) -/

/-- The `format` property dict (source lines 57-72).  The key `'Telesync'`
occurs twice in the source literal; `pyDict` applies Python's dict-literal
semantics to the written entries. -/
def formatPropsTable : List (String × PropVal) :=
  [("VHS", .pats ["VHS"]),
   ("Cam", .pats ["CAM", "CAMRip"]),
   ("Telesync", .pats ["TELESYNC", "PDVD"]),
   ("Telesync", .patsConf ["TS"] 2),
   ("Workprint", .pats ["WORKPRINT", "WP"]),
   ("Telecine", .pats ["TELECINE", "TC"]),
   ("PPV", .pats ["PPV", "PPV-Rip"]),
   ("DVD", .pats ["DVD", "DVD-Rip", "VIDEO-TS"]),
   ("DVB", .pats ["DVB-Rip", "DVB", "PD-TV"]),
   ("HDTV", .pats ["HD-TV"]),
   ("VOD", .pats ["VOD", "VOD-Rip"]),
   ("WEBRip", .pats ["WEB-Rip"]),
   ("WEB-DL", .pats ["WEB-DL"]),
   ("HD-DVD", .pats ["HD-(?:DVD)?-Rip", "HD-DVD"]),
   ("BluRay", .pats ["Blu-ray", "B[DR]", "B[DR]-Rip", "BD[59]", "BD25", "BD50"])]

/-- The `screenSize` property dict (source lines 90-100).  The key `'480p'`
occurs twice in the source literal. -/
def screenSizeTable : List (String × PropVal) :=
  [("360p", .pats ["(?:\\d\x7b3,\x7d(?:\\\\|\\/|x|\\*))?360(?:i|p?x?)"]),
   ("368p", .pats ["(?:\\d\x7b3,\x7d(?:\\\\|\\/|x|\\*))?368(?:i|p?x?)"]),
   ("480p", .pats ["(?:\\d\x7b3,\x7d(?:\\\\|\\/|x|\\*))?480(?:i|p?x?)"]),
   ("480p", .patsConf ["hr"] 2),
   ("576p", .pats ["(?:\\d\x7b3,\x7d(?:\\\\|\\/|x|\\*))?576(?:i|p?x?)"]),
   ("720p", .pats ["(?:\\d\x7b3,\x7d(?:\\\\|\\/|x|\\*))?720(?:i|p?x?)"]),
   ("900p", .pats ["(?:\\d\x7b3,\x7d(?:\\\\|\\/|x|\\*))?900(?:i|p?x?)"]),
   ("1080i", .pats ["(?:\\d\x7b3,\x7d(?:\\\\|\\/|x|\\*))?1080i"]),
   ("1080p", .pats ["(?:\\d\x7b3,\x7d(?:\\\\|\\/|x|\\*))?1080(?:p?x?)"]),
   ("4K", .pats ["(?:\\d\x7b3,\x7d(?:\\\\|\\/|x|\\*))?2160(?:i|p?x?)"])]

/-- The `_videoCodecProperty` dict (source lines 113-119). -/
def videoCodecTable : List (String × PropVal) :=
  [("Real", .pats ["Rv\\d\x7b2\x7d"]),
   ("Mpeg2", .pats ["Mpeg2"]),
   ("DivX", .pats ["DVDivX", "DivX"]),
   ("XviD", .pats ["XviD"]),
   ("h264", .pats ["[hx]-264(?:-AVC)?", "MPEG-4(?:-AVC)"]),
   ("h265", .pats ["[hx]-265(?:-HEVC)?", "HEVC"])]

/-- The `_videoProfiles` dict (source lines 132-139).  Every value is a
tuple except `'Hi444PP'`, whose value is the bare string `('Hi444PP')`. -/
def videoProfilesTable : List (String × PyStrs) :=
  [("BS", .tup ["BS"]),
   ("EP", .tup ["EP", "XP"]),
   ("MP", .tup ["MP"]),
   ("HP", .tup ["HP", "HiP"]),
   ("10bit", .tup ["10.?bit", "Hi10P"]),
   ("Hi422P", .tup ["Hi422P"]),
   ("Hi444PP", .strv "Hi444PP")]

/-- The `audioCodec` property dict (source lines 161-168). -/
def audioCodecTable : List (String × PropVal) :=
  [("MP3", .pats ["MP3"]),
   ("DolbyDigital", .pats ["DD"]),
   ("AAC", .pats ["AAC"]),
   ("AC3", .pats ["AC3"]),
   ("Flac", .pats ["FLAC"]),
   ("DTS", .pats ["DTS"]),
   ("TrueHD", .pats ["True-HD"])]

/-- The `_audioProfiles` dict (source lines 179-187), keyed by audio codec. -/
def audioProfilesTable : List (String × List (String × PyStrs)) :=
  [("DTS", [("HD", .tup ["HD"]), ("HDMA", .tup ["HD-MA"])]),
   ("AAC", [("HE", .tup ["HE"]), ("LC", .tup ["LC"])]),
   ("AC3", [("HQ", .tup ["HQ"])])]

/-- The `audioChannels` property dict (source lines 203-207). -/
def audioChannelsTable : List (String × PropVal) :=
  [("7.1", .pats ["7[\\W_]1", "7ch"]),
   ("5.1", .pats ["5[\\W_]1", "5ch"]),
   ("2.0", .pats ["2[\\W_]0", "2ch", "stereo"]),
   ("1.0", .pats ["1[\\W_]0", "1ch", "mono"])]

/-- The `other` property dict (source lines 217-221). -/
def otherTable : List (String × PropVal) :=
  [("AudioFix", .pats ["Audio-Fix", "Audio-Fixed"]),
   ("SyncFix", .pats ["Sync-Fix", "Sync-Fixed"]),
   ("DualAudio", .pats ["Dual-Audio"]),
   ("WideScreen", .pats ["ws", "wide-screen"])]

/-- The `format` quality dict (source lines 74-88). -/
def formatQualityTable : List (String × Int) :=
  [("VHS", -100), ("Cam", -90), ("Telesync", -80), ("Workprint", -70),
   ("Telecine", -60), ("PPV", -50), ("DVB", -20), ("DVD", 0), ("HDTV", 20),
   ("VOD", 40), ("WEBRip", 50), ("WEB-DL", 60), ("HD-DVD", 80),
   ("BluRay", 100)]

/-- The `screenSize` quality dict (source lines 102-111). -/
def screenSizeQualityTable : List (String × Int) :=
  [("360p", -300), ("368p", -200), ("480p", -100), ("576p", 0),
   ("720p", 100), ("900p", 130), ("1080i", 180), ("1080p", 200), ("4K", 400)]

/-- The `videoCodec` quality dict (source lines 123-129). -/
def videoCodecQualityTable : List (String × Int) :=
  [("Real", -50), ("Mpeg2", -30), ("DivX", -10), ("XviD", 0), ("h264", 100),
   ("h265", 150)]

/-- The `videoProfile` quality dict (source lines 148-155). -/
def videoProfileQualityTable : List (String × Int) :=
  [("BS", -20), ("EP", -10), ("MP", 0), ("HP", 10), ("10bit", 15),
   ("Hi422P", 25), ("Hi444PP", 35)]

/-- The `audioCodec` quality dict (source lines 170-177). -/
def audioCodecQualityTable : List (String × Int) :=
  [("MP3", 10), ("DolbyDigital", 30), ("AAC", 35), ("AC3", 40), ("Flac", 45),
   ("DTS", 60), ("TrueHD", 70)]

/-- The `audioProfile` quality dict (source lines 196-201). -/
def audioProfileQualityTable : List (String × Int) :=
  [("HD", 20), ("HDMA", 50), ("LC", 0), ("HQ", 0), ("HE", 20)]

/-- The `audioChannels` quality dict (source lines 209-213). -/
def audioChannelsQualityTable : List (String × Int) :=
  [("7.1", 200), ("5.1", 100), ("2.0", 0), ("1.0", -100)]

/-! ## The registry build (`GuessProperties.__init__`, source lines 31-229) -/

/-- Registering an entry of one category does not change another
category's entry collection; this makes the `get_properties` reads of the
composition loops loop-invariant, since those loops register only
derived-category entries. -/
theorem getProps_regProp_ne (c : Container) (cat pat canon : String)
    (conf : Nat) (wk : Bool) (cat2 : String) (h : ¬ cat = cat2) :
    getProps (regProp c cat pat canon conf wk) cat2 = getProps c cat2 := by
  unfold getProps regProp
  rw [List.append_eq, List.filter_append]
  simp [h]

/-- Registering an entry of one category does not change another category's
canonical-filtered entry collection. -/
theorem getPropsCanon_regProp_ne (c : Container) (cat pat canon : String)
    (conf : Nat) (wk : Bool) (cat2 canon2 : String) (h : ¬ cat = cat2) :
    getPropsCanon (regProp c cat pat canon conf wk) cat2 canon2 =
      getPropsCanon c cat2 canon2 := by
  unfold getPropsCanon regProp
  rw [List.append_eq, List.filter_append]
  simp [h]

/-- The `videoProfile` composition loop of `GuessProperties.__init__`
(source lines 141-146): for every profile and token variant, and for every
`videoCodec` entry, register the two compound patterns.  The source reads
`get_properties('videoCodec')` from the live container on each iteration;
the loop registers only `videoProfile` entries, so by `getProps_regProp_ne`
that read is loop-invariant and is taken once, at loop entry, here. -/
def regVideoProfiles (c : Container) : Container :=
  let vcProps := getProps c "videoCodec"
  (pyDict videoProfilesTable).foldl
    (fun acc pt =>
      (iterVariants pt.2).foldl
        (fun acc2 tok =>
          vcProps.foldl
            (fun acc3 b =>
              regProp
                (regProp acc3 "videoProfile"
                  (b.pattern ++ "(-" ++ tok ++ ")") pt.1 10 false)
                "videoProfile" ("(" ++ tok ++ "-)" ++ b.pattern) pt.1 10
                false)
            acc2)
        acc)
    c

/-- The `audioProfile` composition loop of `GuessProperties.__init__`
(source lines 189-194): like the videoProfile loop, but the base entries
are the `audioCodec` entries whose canonical form equals the declared codec
key.  The canonical-filtered read is loop-invariant by
`getPropsCanon_regProp_ne` and is taken from the loop-entry container. -/
def regAudioProfiles (c : Container) : Container :=
  (pyDict audioProfilesTable).foldl
    (fun acc ap =>
      let acProps := getPropsCanon c "audioCodec" ap.1
      (pyDict ap.2).foldl
        (fun acc2 pt =>
          (iterVariants pt.2).foldl
            (fun acc3 tok =>
              acProps.foldl
                (fun acc4 b =>
                  regProp
                    (regProp acc4 "audioProfile"
                      (b.pattern ++ "(-" ++ tok ++ ")") pt.1 10 false)
                    "audioProfile" ("(" ++ tok ++ "-)" ++ b.pattern)
                    pt.1 10 false)
                acc3)
            acc2)
        acc)
    c

/-- The format-Screener composition loop of `GuessProperties.__init__`
(source lines 228-229): for every `format` entry, register one `other`
entry whose pattern is the format pattern followed by the Screener
suffix. -/
def regScreenerCompounds (c : Container) : Container :=
  (getProps c "format").foldl
    (fun acc p =>
      regProp acc "other" (p.pattern ++ "(-?Scr(?:eener)?)") "Screener" 10
        false)
    c

/-- The properties container after the whole `__init__` registration
sequence, in source order: `container`, `format`, `screenSize`,
`videoCodec`, the `videoProfile` composition loop (lines 141-146),
`videoApi`, `audioCodec`, the `audioProfile` composition loop (lines
189-194), `audioChannels`, `episodeFormat`, `other` (dict, canonical strict,
canonical weak, `'Extras?'`), and the format-Screener composition loop
(lines 228-229). -/
def buildContainer : Container :=
  regScreenerCompounds
    (regProp
      (regCanonical
        (regCanonical
          (regPropsDict
            (regProp
              (regPropsDict
                (regAudioProfiles
                  (regPropsDict
                    (regPropsDict
                      (regVideoProfiles
                        (regPropsDict
                          (regPropsDict
                            (regPropsDict
                              (regPropsDict [] "container"
                                [("mp4", .pats ["MP4"])])
                              "format" formatPropsTable)
                            "screenSize" screenSizeTable)
                          "videoCodec" videoCodecTable))
                      "videoApi" [("DXVA", .pats ["DXVA"])])
                    "audioCodec" audioCodecTable))
                "audioChannels" audioChannelsTable)
              "episodeFormat" "Minisodes?" "Minisode" 10 false)
            "other" otherTable)
          "other"
          ["Proper", "Repack", "R5", "Screener", "3D", "Fix", "HD", "HQ",
           "DDC"]
          false)
        "other"
        ["Limited", "Complete", "Classic", "Unrated", "LiNE", "Bonus",
         "Trailer"]
        true)
      "other" "Extras?" "Extra" 10 false)

/-- The qualities container after the whole `__init__` registration
sequence, in source order. -/
def buildQualities : List QEntry :=
  let q : List QEntry := []
  let q := regQualDict q "format" formatQualityTable
  let q := regQualDict q "screenSize" screenSizeQualityTable
  let q := regQualDict q "videoCodec" videoCodecQualityTable
  let q := regQualDict q "videoProfile" videoProfileQualityTable
  let q := regQualDict q "audioCodec" audioCodecQualityTable
  let q := regQualDict q "audioProfile" audioProfileQualityTable
  regQualDict q "audioChannels" audioChannelsQualityTable

/-- `GuessProperties.guess_properties(string, node)` restricted to one
category (the node argument is provenance only and never consulted). -/
def guessFor (cat s : String) : List (String × String × Nat) :=
  guessForIn buildContainer cat s

/-- `GuessProperties.guess_properties(string, node)` over all categories. -/
def guessProperties (s : String) : List (String × String × Nat) :=
  guessPropertiesIn buildContainer s

/-- `GuessProperties.rate_quality(guess, *props)`, delegating to the
modelled qualities container. -/
def rateQuality (guess : List (String × String)) (props : List String) :
    Except Unit Int :=
  rateQualityQ buildQualities guess props

/-! ## Derived data used by the claims -/

/-- All `(category, canonical_form)` pairs registered in the domain table at
build time. -/
def registeredPairs : List (String × String) :=
  (buildContainer.map (fun e => (e.category, e.canonical))).dedup

/-- The entries of the built container for one category. -/
def entriesOf (cat : String) : List PatternEntry :=
  getProps buildContainer cat

/-! ## General lemmas about the model -/

/-- Filtering a tagged flat map by one tag of a duplicate-free tag list
returns exactly that tag's block. -/
theorem filter_flatMap_tag {α : Type} (l : List String)
    (f : String → List (String × α)) (cat : String) (hl : l.Nodup)
    (hf : ∀ k x, x ∈ f k → x.1 = k) (hc : cat ∈ l) :
    (l.flatMap f).filter (fun g => g.1 = cat) = f cat := by
  induction l with
  | nil => cases hc
  | cons k t ih =>
    have hk : k ∉ t := (List.nodup_cons.mp hl).1
    have ht : t.Nodup := (List.nodup_cons.mp hl).2
    simp only [List.flatMap_cons, List.filter_append]
    rcases List.mem_cons.mp hc with h | h
    · subst h
      have h1 : (f cat).filter (fun g => g.1 = cat) = f cat := by
        apply List.filter_eq_self.mpr
        intro x hx
        simpa using hf cat x hx
      have h2 : (t.flatMap f).filter (fun g => g.1 = cat) = [] := by
        apply List.filter_eq_nil_iff.mpr
        intro x hx
        obtain ⟨k2, hk2, hx2⟩ := List.mem_flatMap.mp hx
        have hxk : x.1 = k2 := hf k2 x hx2
        simp only [decide_eq_true_eq]
        intro hcon
        have hkc : k2 = cat := by rw [← hxk]; exact hcon
        exact hk (hkc ▸ hk2)
      rw [h1, h2, List.append_nil]
    · have hkc : ¬ k = cat := fun hcon => hk (hcon ▸ h)
      have h1 : (f k).filter (fun g => g.1 = cat) = [] := by
        apply List.filter_eq_nil_iff.mpr
        intro x hx
        have := hf k x hx
        simp only [decide_eq_true_eq, this]
        exact hkc
      rw [h1, List.nil_append]
      exact ih ht h

/-- Every triple produced for one category carries that category as tag. -/
theorem guessForIn_tag (c : Container) (k s : String) :
    ∀ x ∈ guessForIn c k s, x.1 = k := by
  intro x hx
  simp only [guessForIn, List.mem_map] at hx
  obtain ⟨h, _, rfl⟩ := hx
  rfl

/-- The per-category restriction of the full guess: filtering the guess by a
registered category yields exactly that category's resolved hits. -/
theorem guessProperties_cat (cat s : String)
    (hc : cat ∈ containerCats buildContainer) :
    (guessProperties s).filter (fun g => g.1 = cat) = guessFor cat s := by
  apply filter_flatMap_tag
  · exact List.nodup_dedup _
  · intro k x hx
    exact guessForIn_tag buildContainer k s x hx
  · exact hc

/-- Characterisation of the key predicate. -/
theorem qKey_iff (cat canon : String) (e : QEntry) :
    qKey cat canon e = true ↔ e.1 = cat ∧ e.2.1 = canon := by
  simp [qKey]

/-- The replacement entry of an upsert carries its own key. -/
theorem qKey_self (cat canon : String) (sc : Int) :
    qKey cat canon (cat, canon, sc) = true := by
  simp [qKey]

/-- The replacement entry of an upsert does not carry the key of a different
canonical form. -/
theorem qKey_other (cat k1 k : String) (v : Int) (hne : ¬ k = k1) :
    ¬ qKey cat k (cat, k1, v) = true := by
  intro hcon
  exact hne ((qKey_iff cat k (cat, k1, v)).mp hcon).2.symm

/-- Replacing the entries of a different key does not change a find. -/
theorem find_map_replace_other (t : List QEntry) (cat k1 k : String)
    (v : Int) (hne : ¬ k = k1) :
    (t.map (fun e => if qKey cat k1 e then (cat, k1, v) else e)).find?
        (qKey cat k) =
      t.find? (qKey cat k) := by
  induction t with
  | nil => rfl
  | cons e t ih =>
    by_cases he : qKey cat k e = true
    · have he1 : ¬ qKey cat k1 e = true := by
        intro hcon
        exact hne (((qKey_iff cat k e).mp he).2.symm.trans
          ((qKey_iff cat k1 e).mp hcon).2)
      simp only [List.map_cons, if_neg he1]
      rw [List.find?_cons_of_pos _ he, List.find?_cons_of_pos _ he]
    · by_cases he1 : qKey cat k1 e = true
      · simp only [List.map_cons, if_pos he1]
        rw [List.find?_cons_of_neg _ (qKey_other cat k1 k v hne),
          List.find?_cons_of_neg _ he]
        exact ih
      · simp only [List.map_cons, if_neg he1]
        rw [List.find?_cons_of_neg _ he, List.find?_cons_of_neg _ he]
        exact ih

/-- Appending an entry of a different key does not change a find. -/
theorem find_append_single_other (t : List QEntry) (cat k1 k : String)
    (v : Int) (hne : ¬ k = k1) :
    (List.append t [(cat, k1, v)]).find? (qKey cat k) =
      t.find? (qKey cat k) := by
  induction t with
  | nil =>
    simp only [List.append_eq, List.nil_append]
    rw [List.find?_cons_of_neg _ (qKey_other cat k1 k v hne)]
  | cons e t ih =>
    by_cases he : qKey cat k e = true
    · simp only [List.append_eq, List.cons_append]
      rw [List.find?_cons_of_pos _ he, List.find?_cons_of_pos _ he]
    · simp only [List.append_eq, List.cons_append]
      rw [List.find?_cons_of_neg _ he, List.find?_cons_of_neg _ he]
      simpa [List.append_eq] using ih

/-- Replacing the entries of one key with that key's new entry makes a find
of the key return the new entry, provided the key occurs. -/
theorem find_map_replace_self (t : List QEntry) (cat canon : String)
    (sc : Int) (h : t.any (qKey cat canon) = true) :
    (t.map (fun e => if qKey cat canon e then (cat, canon, sc) else e)).find?
        (qKey cat canon) =
      some (cat, canon, sc) := by
  induction t with
  | nil => simp at h
  | cons e t ih =>
    by_cases he : qKey cat canon e = true
    · simp only [List.map_cons, if_pos he]
      rw [List.find?_cons_of_pos _ (qKey_self cat canon sc)]
    · have h2 : t.any (qKey cat canon) = true := by
        rcases List.any_eq_true.mp h with ⟨x, hx, hpx⟩
        rcases List.mem_cons.mp hx with rfl | hx2
        · exact absurd hpx he
        · exact List.any_eq_true.mpr ⟨x, hx2, hpx⟩
      simp only [List.map_cons, if_neg he]
      rw [List.find?_cons_of_neg _ he]
      exact ih h2

/-- Appending an entry of a key that does not occur makes a find of the key
return the appended entry. -/
theorem find_append_single_self (t : List QEntry) (cat canon : String)
    (sc : Int) (h : ¬ t.any (qKey cat canon) = true) :
    (List.append t [(cat, canon, sc)]).find? (qKey cat canon) =
      some (cat, canon, sc) := by
  induction t with
  | nil =>
    simp only [List.append_eq, List.nil_append]
    rw [List.find?_cons_of_pos _ (qKey_self cat canon sc)]
  | cons e t ih =>
    have he : ¬ qKey cat canon e = true := by
      intro hcon
      exact h (List.any_eq_true.mpr ⟨e, List.mem_cons_self e t, hcon⟩)
    have h2 : ¬ t.any (qKey cat canon) = true := by
      intro hcon
      rcases List.any_eq_true.mp hcon with ⟨x, hx, hpx⟩
      exact h (List.any_eq_true.mpr ⟨x, List.mem_cons_of_mem e hx, hpx⟩)
    simp only [List.append_eq, List.cons_append]
    rw [List.find?_cons_of_neg _ he]
    simpa [List.append_eq] using ih h2

/-- Looking up a key right after upserting it returns the new score. -/
theorem qLookup_register_self (q : List QEntry) (cat canon : String)
    (sc : Int) :
    qLookup (registerQualityQ q cat canon sc) cat canon = some sc := by
  unfold registerQualityQ qLookup
  by_cases h : q.any (qKey cat canon) = true
  · rw [if_pos h, find_map_replace_self q cat canon sc h]
    rfl
  · rw [if_neg h, find_append_single_self q cat canon sc h]
    rfl

/-- Upserting one canonical form leaves the lookup of any other canonical
form of the same category unchanged. -/
theorem qLookup_register_other (q : List QEntry) (cat k1 k : String)
    (v : Int) (hne : ¬ k = k1) :
    qLookup (registerQualityQ q cat k1 v) cat k = qLookup q cat k := by
  unfold registerQualityQ qLookup
  by_cases h : q.any (qKey cat k1) = true
  · rw [if_pos h, find_map_replace_other q cat k1 k v hne]
  · rw [if_neg h, find_append_single_other q cat k1 k v hne]

/-- Replaying upserts for keys other than `k` leaves the lookup of `k`
unchanged. -/
theorem qLookup_foldl_not_mem (cat : String) (t : List (String × Int))
    (k : String) (hk : ¬ k ∈ t.map Prod.fst) (init : List QEntry) :
    qLookup
        (t.foldl (fun q kv => registerQualityQ q cat kv.1 kv.2) init) cat k =
      qLookup init cat k := by
  induction t generalizing init with
  | nil => rfl
  | cons kv t ih =>
    have hk1 : ¬ k = kv.1 := by
      intro hcon
      exact hk (by simp [hcon])
    have hkt : ¬ k ∈ t.map Prod.fst := by
      intro hcon
      exact hk (List.mem_cons_of_mem _ hcon)
    simp only [List.foldl_cons]
    rw [ih hkt, qLookup_register_other init cat kv.1 k kv.2 hk1]

/-- Replaying a duplicate-key-free registration list puts every listed score
in place, whatever the replay order. -/
theorem qLookup_foldl_reg (cat : String) (l : List (String × Int))
    (k : String) (v : Int) (hnd : (l.map Prod.fst).Nodup)
    (hmem : (k, v) ∈ l) (init : List QEntry) :
    qLookup (l.foldl (fun q kv => registerQualityQ q cat kv.1 kv.2) init)
        cat k =
      some v := by
  induction l generalizing init with
  | nil => cases hmem
  | cons kv t ih =>
    rw [List.map_cons] at hnd
    have hh := List.nodup_cons.mp hnd
    simp only [List.foldl_cons]
    rcases List.mem_cons.mp hmem with h | h
    · have hk1 : kv.1 = k := by rw [← h]
      have hv : kv.2 = v := by rw [← h]
      have hkt : ¬ k ∈ t.map Prod.fst := by
        rw [← hk1]
        exact hh.1
      rw [qLookup_foldl_not_mem cat t k hkt _, hk1, hv,
        qLookup_register_self init cat k v]
    · exact ih hh.2 h _

/-- Upserting keeps the entry count of the key when the key is present and
raises it by one when absent. -/
theorem qCount_register (q : List QEntry) (cat canon : String) (sc : Int) :
    qCount (registerQualityQ q cat canon sc) cat canon =
      if q.any (qKey cat canon) then qCount q cat canon
      else qCount q cat canon + 1 := by
  unfold registerQualityQ qCount
  by_cases h : q.any (qKey cat canon) = true
  · rw [if_pos h, if_pos h, List.countP_map]
    apply List.countP_congr
    intro e he
    by_cases hk : qKey cat canon e = true
    · simp only [Function.comp_apply, if_pos hk]
      rw [hk, qKey_self]
    · simp only [Function.comp_apply, if_neg hk]
  · rw [if_neg h, if_neg h]
    simp only [List.append_eq]
    rw [List.countP_append]
    simp [List.countP_cons, qKey_self]

/-- A key is present exactly when its entry count is positive. -/
theorem qCount_pos_iff_any (q : List QEntry) (cat canon : String) :
    q.any (qKey cat canon) = true ↔ 0 < qCount q cat canon := by
  unfold qCount
  rw [List.any_eq_true, List.countP_pos_iff]

/-- Rating one explicitly requested category of a one-category guess
returns exactly the looked-up score. -/
theorem rate_single (q : List QEntry) (cat canon : String) (sc : Int)
    (h : qLookup q cat canon = some sc) :
    rateQualityQ q [(cat, canon)] [cat] = Except.ok sc := by
  simp [rateQualityQ, List.foldlM, List.find?, h]

/-- Does `sub` occur at the start of `hay`? -/
def leadsWith : List Nat → List Nat → Bool
  | [], _ => true
  | _ :: _, [] => false
  | s :: st, h :: t => s = h ∧ leadsWith st t

/-- Does `sub` occur anywhere inside `hay`? -/
def occursIn (sub hay : List Nat) : Bool :=
  match hay with
  | [] => leadsWith sub []
  | _ :: t => leadsWith sub hay ∨ occursIn sub t

/-- Literal (case-sensitive) substring test on strings. -/
def strOccurs (sub hay : String) : Bool :=
  occursIn (codes sub) (codes hay)

set_option maxRecDepth 100000

set_option maxHeartbeats 4000000

/-- Boolean field-wise comparison of two pattern entries. -/
def entryBeq (a b : PatternEntry) : Bool :=
  (a.category == b.category) && (a.pattern == b.pattern) &&
  (a.canonical == b.canonical) && (a.conf == b.conf) && (a.weak == b.weak)

/-- Boolean element-wise comparison of two containers. -/
def contBeq : Container → Container → Bool
  | [], [] => true
  | a :: t1, b :: t2 => entryBeq a b && contBeq t1 t2
  | _, _ => false

/-- Boolean entry comparison is sound. -/
theorem entryBeq_sound (a b : PatternEntry) (h : entryBeq a b = true) :
    a = b := by
  cases a
  cases b
  simp only [entryBeq, Bool.and_eq_true, beq_iff_eq] at h
  obtain ⟨⟨⟨⟨h1, h2⟩, h3⟩, h4⟩, h5⟩ := h
  simp_all

/-- Boolean container comparison is sound. -/
theorem contBeq_sound (l1 l2 : Container) (h : contBeq l1 l2 = true) :
    l1 = l2 := by
  induction l1 generalizing l2 with
  | nil =>
    cases l2 with
    | nil => rfl
    | cons b t2 => simp [contBeq] at h
  | cons a t1 ih =>
    cases l2 with
    | nil => simp [contBeq] at h
    | cons b t2 =>
      simp only [contBeq, Bool.and_eq_true] at h
      rw [entryBeq_sound a b h.1, ih t2 h.2]

/-- The entries appended by the container stage -/
def builtBlock1 : Container :=
  [⟨"container", "MP4", "mp4", 10, false⟩]

/-- The entries appended by the format stage -/
def builtBlock2 : Container :=
  [⟨"format", "VHS", "VHS", 10, false⟩,
   ⟨"format", "CAM", "Cam", 10, false⟩,
   ⟨"format", "CAMRip", "Cam", 10, false⟩,
   ⟨"format", "TS", "Telesync", 2, false⟩,
   ⟨"format", "WORKPRINT", "Workprint", 10, false⟩,
   ⟨"format", "WP", "Workprint", 10, false⟩,
   ⟨"format", "TELECINE", "Telecine", 10, false⟩,
   ⟨"format", "TC", "Telecine", 10, false⟩,
   ⟨"format", "PPV", "PPV", 10, false⟩,
   ⟨"format", "PPV-Rip", "PPV", 10, false⟩,
   ⟨"format", "DVD", "DVD", 10, false⟩,
   ⟨"format", "DVD-Rip", "DVD", 10, false⟩,
   ⟨"format", "VIDEO-TS", "DVD", 10, false⟩,
   ⟨"format", "DVB-Rip", "DVB", 10, false⟩,
   ⟨"format", "DVB", "DVB", 10, false⟩,
   ⟨"format", "PD-TV", "DVB", 10, false⟩,
   ⟨"format", "HD-TV", "HDTV", 10, false⟩,
   ⟨"format", "VOD", "VOD", 10, false⟩,
   ⟨"format", "VOD-Rip", "VOD", 10, false⟩,
   ⟨"format", "WEB-Rip", "WEBRip", 10, false⟩,
   ⟨"format", "WEB-DL", "WEB-DL", 10, false⟩,
   ⟨"format", "HD-(?:DVD)?-Rip", "HD-DVD", 10, false⟩,
   ⟨"format", "HD-DVD", "HD-DVD", 10, false⟩,
   ⟨"format", "Blu-ray", "BluRay", 10, false⟩,
   ⟨"format", "B[DR]", "BluRay", 10, false⟩,
   ⟨"format", "B[DR]-Rip", "BluRay", 10, false⟩,
   ⟨"format", "BD[59]", "BluRay", 10, false⟩,
   ⟨"format", "BD25", "BluRay", 10, false⟩,
   ⟨"format", "BD50", "BluRay", 10, false⟩]

/-- The entries appended by the screenSize stage -/
def builtBlock3 : Container :=
  [⟨"screenSize", "(?:\\d\x7b3,\x7d(?:\\\\|\\/|x|\\*))?360(?:i|p?x?)", "360p", 10, false⟩,
   ⟨"screenSize", "(?:\\d\x7b3,\x7d(?:\\\\|\\/|x|\\*))?368(?:i|p?x?)", "368p", 10, false⟩,
   ⟨"screenSize", "hr", "480p", 2, false⟩,
   ⟨"screenSize", "(?:\\d\x7b3,\x7d(?:\\\\|\\/|x|\\*))?576(?:i|p?x?)", "576p", 10, false⟩,
   ⟨"screenSize", "(?:\\d\x7b3,\x7d(?:\\\\|\\/|x|\\*))?720(?:i|p?x?)", "720p", 10, false⟩,
   ⟨"screenSize", "(?:\\d\x7b3,\x7d(?:\\\\|\\/|x|\\*))?900(?:i|p?x?)", "900p", 10, false⟩,
   ⟨"screenSize", "(?:\\d\x7b3,\x7d(?:\\\\|\\/|x|\\*))?1080i", "1080i", 10, false⟩,
   ⟨"screenSize", "(?:\\d\x7b3,\x7d(?:\\\\|\\/|x|\\*))?1080(?:p?x?)", "1080p", 10, false⟩,
   ⟨"screenSize", "(?:\\d\x7b3,\x7d(?:\\\\|\\/|x|\\*))?2160(?:i|p?x?)", "4K", 10, false⟩]

/-- The entries appended by the videoCodec stage -/
def builtBlock4 : Container :=
  [⟨"videoCodec", "Rv\\d\x7b2\x7d", "Real", 10, false⟩,
   ⟨"videoCodec", "Mpeg2", "Mpeg2", 10, false⟩,
   ⟨"videoCodec", "DVDivX", "DivX", 10, false⟩,
   ⟨"videoCodec", "DivX", "DivX", 10, false⟩,
   ⟨"videoCodec", "XviD", "XviD", 10, false⟩,
   ⟨"videoCodec", "[hx]-264(?:-AVC)?", "h264", 10, false⟩,
   ⟨"videoCodec", "MPEG-4(?:-AVC)", "h264", 10, false⟩,
   ⟨"videoCodec", "[hx]-265(?:-HEVC)?", "h265", 10, false⟩,
   ⟨"videoCodec", "HEVC", "h265", 10, false⟩]

/-- Slice 1 of the entries appended by the videoProfile composition stage -/
def builtBlock5Part1 : Container :=
  [⟨"videoProfile", "Rv\\d\x7b2\x7d(-BS)", "BS", 10, false⟩,
   ⟨"videoProfile", "(BS-)Rv\\d\x7b2\x7d", "BS", 10, false⟩,
   ⟨"videoProfile", "Mpeg2(-BS)", "BS", 10, false⟩,
   ⟨"videoProfile", "(BS-)Mpeg2", "BS", 10, false⟩,
   ⟨"videoProfile", "DVDivX(-BS)", "BS", 10, false⟩,
   ⟨"videoProfile", "(BS-)DVDivX", "BS", 10, false⟩,
   ⟨"videoProfile", "DivX(-BS)", "BS", 10, false⟩,
   ⟨"videoProfile", "(BS-)DivX", "BS", 10, false⟩,
   ⟨"videoProfile", "XviD(-BS)", "BS", 10, false⟩,
   ⟨"videoProfile", "(BS-)XviD", "BS", 10, false⟩,
   ⟨"videoProfile", "[hx]-264(?:-AVC)?(-BS)", "BS", 10, false⟩,
   ⟨"videoProfile", "(BS-)[hx]-264(?:-AVC)?", "BS", 10, false⟩,
   ⟨"videoProfile", "MPEG-4(?:-AVC)(-BS)", "BS", 10, false⟩,
   ⟨"videoProfile", "(BS-)MPEG-4(?:-AVC)", "BS", 10, false⟩,
   ⟨"videoProfile", "[hx]-265(?:-HEVC)?(-BS)", "BS", 10, false⟩,
   ⟨"videoProfile", "(BS-)[hx]-265(?:-HEVC)?", "BS", 10, false⟩,
   ⟨"videoProfile", "HEVC(-BS)", "BS", 10, false⟩,
   ⟨"videoProfile", "(BS-)HEVC", "BS", 10, false⟩,
   ⟨"videoProfile", "Rv\\d\x7b2\x7d(-EP)", "EP", 10, false⟩,
   ⟨"videoProfile", "(EP-)Rv\\d\x7b2\x7d", "EP", 10, false⟩,
   ⟨"videoProfile", "Mpeg2(-EP)", "EP", 10, false⟩,
   ⟨"videoProfile", "(EP-)Mpeg2", "EP", 10, false⟩,
   ⟨"videoProfile", "DVDivX(-EP)", "EP", 10, false⟩,
   ⟨"videoProfile", "(EP-)DVDivX", "EP", 10, false⟩,
   ⟨"videoProfile", "DivX(-EP)", "EP", 10, false⟩,
   ⟨"videoProfile", "(EP-)DivX", "EP", 10, false⟩,
   ⟨"videoProfile", "XviD(-EP)", "EP", 10, false⟩,
   ⟨"videoProfile", "(EP-)XviD", "EP", 10, false⟩,
   ⟨"videoProfile", "[hx]-264(?:-AVC)?(-EP)", "EP", 10, false⟩,
   ⟨"videoProfile", "(EP-)[hx]-264(?:-AVC)?", "EP", 10, false⟩,
   ⟨"videoProfile", "MPEG-4(?:-AVC)(-EP)", "EP", 10, false⟩,
   ⟨"videoProfile", "(EP-)MPEG-4(?:-AVC)", "EP", 10, false⟩,
   ⟨"videoProfile", "[hx]-265(?:-HEVC)?(-EP)", "EP", 10, false⟩,
   ⟨"videoProfile", "(EP-)[hx]-265(?:-HEVC)?", "EP", 10, false⟩,
   ⟨"videoProfile", "HEVC(-EP)", "EP", 10, false⟩,
   ⟨"videoProfile", "(EP-)HEVC", "EP", 10, false⟩]

/-- Slice 2 of the entries appended by the videoProfile composition stage -/
def builtBlock5Part2 : Container :=
  [⟨"videoProfile", "Rv\\d\x7b2\x7d(-XP)", "EP", 10, false⟩,
   ⟨"videoProfile", "(XP-)Rv\\d\x7b2\x7d", "EP", 10, false⟩,
   ⟨"videoProfile", "Mpeg2(-XP)", "EP", 10, false⟩,
   ⟨"videoProfile", "(XP-)Mpeg2", "EP", 10, false⟩,
   ⟨"videoProfile", "DVDivX(-XP)", "EP", 10, false⟩,
   ⟨"videoProfile", "(XP-)DVDivX", "EP", 10, false⟩,
   ⟨"videoProfile", "DivX(-XP)", "EP", 10, false⟩,
   ⟨"videoProfile", "(XP-)DivX", "EP", 10, false⟩,
   ⟨"videoProfile", "XviD(-XP)", "EP", 10, false⟩,
   ⟨"videoProfile", "(XP-)XviD", "EP", 10, false⟩,
   ⟨"videoProfile", "[hx]-264(?:-AVC)?(-XP)", "EP", 10, false⟩,
   ⟨"videoProfile", "(XP-)[hx]-264(?:-AVC)?", "EP", 10, false⟩,
   ⟨"videoProfile", "MPEG-4(?:-AVC)(-XP)", "EP", 10, false⟩,
   ⟨"videoProfile", "(XP-)MPEG-4(?:-AVC)", "EP", 10, false⟩,
   ⟨"videoProfile", "[hx]-265(?:-HEVC)?(-XP)", "EP", 10, false⟩,
   ⟨"videoProfile", "(XP-)[hx]-265(?:-HEVC)?", "EP", 10, false⟩,
   ⟨"videoProfile", "HEVC(-XP)", "EP", 10, false⟩,
   ⟨"videoProfile", "(XP-)HEVC", "EP", 10, false⟩,
   ⟨"videoProfile", "Rv\\d\x7b2\x7d(-MP)", "MP", 10, false⟩,
   ⟨"videoProfile", "(MP-)Rv\\d\x7b2\x7d", "MP", 10, false⟩,
   ⟨"videoProfile", "Mpeg2(-MP)", "MP", 10, false⟩,
   ⟨"videoProfile", "(MP-)Mpeg2", "MP", 10, false⟩,
   ⟨"videoProfile", "DVDivX(-MP)", "MP", 10, false⟩,
   ⟨"videoProfile", "(MP-)DVDivX", "MP", 10, false⟩,
   ⟨"videoProfile", "DivX(-MP)", "MP", 10, false⟩,
   ⟨"videoProfile", "(MP-)DivX", "MP", 10, false⟩,
   ⟨"videoProfile", "XviD(-MP)", "MP", 10, false⟩,
   ⟨"videoProfile", "(MP-)XviD", "MP", 10, false⟩,
   ⟨"videoProfile", "[hx]-264(?:-AVC)?(-MP)", "MP", 10, false⟩,
   ⟨"videoProfile", "(MP-)[hx]-264(?:-AVC)?", "MP", 10, false⟩,
   ⟨"videoProfile", "MPEG-4(?:-AVC)(-MP)", "MP", 10, false⟩,
   ⟨"videoProfile", "(MP-)MPEG-4(?:-AVC)", "MP", 10, false⟩,
   ⟨"videoProfile", "[hx]-265(?:-HEVC)?(-MP)", "MP", 10, false⟩,
   ⟨"videoProfile", "(MP-)[hx]-265(?:-HEVC)?", "MP", 10, false⟩,
   ⟨"videoProfile", "HEVC(-MP)", "MP", 10, false⟩,
   ⟨"videoProfile", "(MP-)HEVC", "MP", 10, false⟩]

/-- Slice 3 of the entries appended by the videoProfile composition stage -/
def builtBlock5Part3 : Container :=
  [⟨"videoProfile", "Rv\\d\x7b2\x7d(-HP)", "HP", 10, false⟩,
   ⟨"videoProfile", "(HP-)Rv\\d\x7b2\x7d", "HP", 10, false⟩,
   ⟨"videoProfile", "Mpeg2(-HP)", "HP", 10, false⟩,
   ⟨"videoProfile", "(HP-)Mpeg2", "HP", 10, false⟩,
   ⟨"videoProfile", "DVDivX(-HP)", "HP", 10, false⟩,
   ⟨"videoProfile", "(HP-)DVDivX", "HP", 10, false⟩,
   ⟨"videoProfile", "DivX(-HP)", "HP", 10, false⟩,
   ⟨"videoProfile", "(HP-)DivX", "HP", 10, false⟩,
   ⟨"videoProfile", "XviD(-HP)", "HP", 10, false⟩,
   ⟨"videoProfile", "(HP-)XviD", "HP", 10, false⟩,
   ⟨"videoProfile", "[hx]-264(?:-AVC)?(-HP)", "HP", 10, false⟩,
   ⟨"videoProfile", "(HP-)[hx]-264(?:-AVC)?", "HP", 10, false⟩,
   ⟨"videoProfile", "MPEG-4(?:-AVC)(-HP)", "HP", 10, false⟩,
   ⟨"videoProfile", "(HP-)MPEG-4(?:-AVC)", "HP", 10, false⟩,
   ⟨"videoProfile", "[hx]-265(?:-HEVC)?(-HP)", "HP", 10, false⟩,
   ⟨"videoProfile", "(HP-)[hx]-265(?:-HEVC)?", "HP", 10, false⟩,
   ⟨"videoProfile", "HEVC(-HP)", "HP", 10, false⟩,
   ⟨"videoProfile", "(HP-)HEVC", "HP", 10, false⟩,
   ⟨"videoProfile", "Rv\\d\x7b2\x7d(-HiP)", "HP", 10, false⟩,
   ⟨"videoProfile", "(HiP-)Rv\\d\x7b2\x7d", "HP", 10, false⟩,
   ⟨"videoProfile", "Mpeg2(-HiP)", "HP", 10, false⟩,
   ⟨"videoProfile", "(HiP-)Mpeg2", "HP", 10, false⟩,
   ⟨"videoProfile", "DVDivX(-HiP)", "HP", 10, false⟩,
   ⟨"videoProfile", "(HiP-)DVDivX", "HP", 10, false⟩,
   ⟨"videoProfile", "DivX(-HiP)", "HP", 10, false⟩,
   ⟨"videoProfile", "(HiP-)DivX", "HP", 10, false⟩,
   ⟨"videoProfile", "XviD(-HiP)", "HP", 10, false⟩,
   ⟨"videoProfile", "(HiP-)XviD", "HP", 10, false⟩,
   ⟨"videoProfile", "[hx]-264(?:-AVC)?(-HiP)", "HP", 10, false⟩,
   ⟨"videoProfile", "(HiP-)[hx]-264(?:-AVC)?", "HP", 10, false⟩,
   ⟨"videoProfile", "MPEG-4(?:-AVC)(-HiP)", "HP", 10, false⟩,
   ⟨"videoProfile", "(HiP-)MPEG-4(?:-AVC)", "HP", 10, false⟩,
   ⟨"videoProfile", "[hx]-265(?:-HEVC)?(-HiP)", "HP", 10, false⟩,
   ⟨"videoProfile", "(HiP-)[hx]-265(?:-HEVC)?", "HP", 10, false⟩,
   ⟨"videoProfile", "HEVC(-HiP)", "HP", 10, false⟩,
   ⟨"videoProfile", "(HiP-)HEVC", "HP", 10, false⟩]

/-- Slice 4 of the entries appended by the videoProfile composition stage -/
def builtBlock5Part4 : Container :=
  [⟨"videoProfile", "Rv\\d\x7b2\x7d(-10.?bit)", "10bit", 10, false⟩,
   ⟨"videoProfile", "(10.?bit-)Rv\\d\x7b2\x7d", "10bit", 10, false⟩,
   ⟨"videoProfile", "Mpeg2(-10.?bit)", "10bit", 10, false⟩,
   ⟨"videoProfile", "(10.?bit-)Mpeg2", "10bit", 10, false⟩,
   ⟨"videoProfile", "DVDivX(-10.?bit)", "10bit", 10, false⟩,
   ⟨"videoProfile", "(10.?bit-)DVDivX", "10bit", 10, false⟩,
   ⟨"videoProfile", "DivX(-10.?bit)", "10bit", 10, false⟩,
   ⟨"videoProfile", "(10.?bit-)DivX", "10bit", 10, false⟩,
   ⟨"videoProfile", "XviD(-10.?bit)", "10bit", 10, false⟩,
   ⟨"videoProfile", "(10.?bit-)XviD", "10bit", 10, false⟩,
   ⟨"videoProfile", "[hx]-264(?:-AVC)?(-10.?bit)", "10bit", 10, false⟩,
   ⟨"videoProfile", "(10.?bit-)[hx]-264(?:-AVC)?", "10bit", 10, false⟩,
   ⟨"videoProfile", "MPEG-4(?:-AVC)(-10.?bit)", "10bit", 10, false⟩,
   ⟨"videoProfile", "(10.?bit-)MPEG-4(?:-AVC)", "10bit", 10, false⟩,
   ⟨"videoProfile", "[hx]-265(?:-HEVC)?(-10.?bit)", "10bit", 10, false⟩,
   ⟨"videoProfile", "(10.?bit-)[hx]-265(?:-HEVC)?", "10bit", 10, false⟩,
   ⟨"videoProfile", "HEVC(-10.?bit)", "10bit", 10, false⟩,
   ⟨"videoProfile", "(10.?bit-)HEVC", "10bit", 10, false⟩,
   ⟨"videoProfile", "Rv\\d\x7b2\x7d(-Hi10P)", "10bit", 10, false⟩,
   ⟨"videoProfile", "(Hi10P-)Rv\\d\x7b2\x7d", "10bit", 10, false⟩,
   ⟨"videoProfile", "Mpeg2(-Hi10P)", "10bit", 10, false⟩,
   ⟨"videoProfile", "(Hi10P-)Mpeg2", "10bit", 10, false⟩,
   ⟨"videoProfile", "DVDivX(-Hi10P)", "10bit", 10, false⟩,
   ⟨"videoProfile", "(Hi10P-)DVDivX", "10bit", 10, false⟩,
   ⟨"videoProfile", "DivX(-Hi10P)", "10bit", 10, false⟩,
   ⟨"videoProfile", "(Hi10P-)DivX", "10bit", 10, false⟩,
   ⟨"videoProfile", "XviD(-Hi10P)", "10bit", 10, false⟩,
   ⟨"videoProfile", "(Hi10P-)XviD", "10bit", 10, false⟩,
   ⟨"videoProfile", "[hx]-264(?:-AVC)?(-Hi10P)", "10bit", 10, false⟩,
   ⟨"videoProfile", "(Hi10P-)[hx]-264(?:-AVC)?", "10bit", 10, false⟩,
   ⟨"videoProfile", "MPEG-4(?:-AVC)(-Hi10P)", "10bit", 10, false⟩,
   ⟨"videoProfile", "(Hi10P-)MPEG-4(?:-AVC)", "10bit", 10, false⟩,
   ⟨"videoProfile", "[hx]-265(?:-HEVC)?(-Hi10P)", "10bit", 10, false⟩,
   ⟨"videoProfile", "(Hi10P-)[hx]-265(?:-HEVC)?", "10bit", 10, false⟩,
   ⟨"videoProfile", "HEVC(-Hi10P)", "10bit", 10, false⟩,
   ⟨"videoProfile", "(Hi10P-)HEVC", "10bit", 10, false⟩]

/-- Slice 5 of the entries appended by the videoProfile composition stage -/
def builtBlock5Part5 : Container :=
  [⟨"videoProfile", "Rv\\d\x7b2\x7d(-Hi422P)", "Hi422P", 10, false⟩,
   ⟨"videoProfile", "(Hi422P-)Rv\\d\x7b2\x7d", "Hi422P", 10, false⟩,
   ⟨"videoProfile", "Mpeg2(-Hi422P)", "Hi422P", 10, false⟩,
   ⟨"videoProfile", "(Hi422P-)Mpeg2", "Hi422P", 10, false⟩,
   ⟨"videoProfile", "DVDivX(-Hi422P)", "Hi422P", 10, false⟩,
   ⟨"videoProfile", "(Hi422P-)DVDivX", "Hi422P", 10, false⟩,
   ⟨"videoProfile", "DivX(-Hi422P)", "Hi422P", 10, false⟩,
   ⟨"videoProfile", "(Hi422P-)DivX", "Hi422P", 10, false⟩,
   ⟨"videoProfile", "XviD(-Hi422P)", "Hi422P", 10, false⟩,
   ⟨"videoProfile", "(Hi422P-)XviD", "Hi422P", 10, false⟩,
   ⟨"videoProfile", "[hx]-264(?:-AVC)?(-Hi422P)", "Hi422P", 10, false⟩,
   ⟨"videoProfile", "(Hi422P-)[hx]-264(?:-AVC)?", "Hi422P", 10, false⟩,
   ⟨"videoProfile", "MPEG-4(?:-AVC)(-Hi422P)", "Hi422P", 10, false⟩,
   ⟨"videoProfile", "(Hi422P-)MPEG-4(?:-AVC)", "Hi422P", 10, false⟩,
   ⟨"videoProfile", "[hx]-265(?:-HEVC)?(-Hi422P)", "Hi422P", 10, false⟩,
   ⟨"videoProfile", "(Hi422P-)[hx]-265(?:-HEVC)?", "Hi422P", 10, false⟩,
   ⟨"videoProfile", "HEVC(-Hi422P)", "Hi422P", 10, false⟩,
   ⟨"videoProfile", "(Hi422P-)HEVC", "Hi422P", 10, false⟩,
   ⟨"videoProfile", "Rv\\d\x7b2\x7d(-H)", "Hi444PP", 10, false⟩,
   ⟨"videoProfile", "(H-)Rv\\d\x7b2\x7d", "Hi444PP", 10, false⟩,
   ⟨"videoProfile", "Mpeg2(-H)", "Hi444PP", 10, false⟩,
   ⟨"videoProfile", "(H-)Mpeg2", "Hi444PP", 10, false⟩,
   ⟨"videoProfile", "DVDivX(-H)", "Hi444PP", 10, false⟩,
   ⟨"videoProfile", "(H-)DVDivX", "Hi444PP", 10, false⟩,
   ⟨"videoProfile", "DivX(-H)", "Hi444PP", 10, false⟩,
   ⟨"videoProfile", "(H-)DivX", "Hi444PP", 10, false⟩,
   ⟨"videoProfile", "XviD(-H)", "Hi444PP", 10, false⟩,
   ⟨"videoProfile", "(H-)XviD", "Hi444PP", 10, false⟩,
   ⟨"videoProfile", "[hx]-264(?:-AVC)?(-H)", "Hi444PP", 10, false⟩,
   ⟨"videoProfile", "(H-)[hx]-264(?:-AVC)?", "Hi444PP", 10, false⟩,
   ⟨"videoProfile", "MPEG-4(?:-AVC)(-H)", "Hi444PP", 10, false⟩,
   ⟨"videoProfile", "(H-)MPEG-4(?:-AVC)", "Hi444PP", 10, false⟩,
   ⟨"videoProfile", "[hx]-265(?:-HEVC)?(-H)", "Hi444PP", 10, false⟩,
   ⟨"videoProfile", "(H-)[hx]-265(?:-HEVC)?", "Hi444PP", 10, false⟩,
   ⟨"videoProfile", "HEVC(-H)", "Hi444PP", 10, false⟩,
   ⟨"videoProfile", "(H-)HEVC", "Hi444PP", 10, false⟩]

/-- Slice 6 of the entries appended by the videoProfile composition stage -/
def builtBlock5Part6 : Container :=
  [⟨"videoProfile", "Rv\\d\x7b2\x7d(-i)", "Hi444PP", 10, false⟩,
   ⟨"videoProfile", "(i-)Rv\\d\x7b2\x7d", "Hi444PP", 10, false⟩,
   ⟨"videoProfile", "Mpeg2(-i)", "Hi444PP", 10, false⟩,
   ⟨"videoProfile", "(i-)Mpeg2", "Hi444PP", 10, false⟩,
   ⟨"videoProfile", "DVDivX(-i)", "Hi444PP", 10, false⟩,
   ⟨"videoProfile", "(i-)DVDivX", "Hi444PP", 10, false⟩,
   ⟨"videoProfile", "DivX(-i)", "Hi444PP", 10, false⟩,
   ⟨"videoProfile", "(i-)DivX", "Hi444PP", 10, false⟩,
   ⟨"videoProfile", "XviD(-i)", "Hi444PP", 10, false⟩,
   ⟨"videoProfile", "(i-)XviD", "Hi444PP", 10, false⟩,
   ⟨"videoProfile", "[hx]-264(?:-AVC)?(-i)", "Hi444PP", 10, false⟩,
   ⟨"videoProfile", "(i-)[hx]-264(?:-AVC)?", "Hi444PP", 10, false⟩,
   ⟨"videoProfile", "MPEG-4(?:-AVC)(-i)", "Hi444PP", 10, false⟩,
   ⟨"videoProfile", "(i-)MPEG-4(?:-AVC)", "Hi444PP", 10, false⟩,
   ⟨"videoProfile", "[hx]-265(?:-HEVC)?(-i)", "Hi444PP", 10, false⟩,
   ⟨"videoProfile", "(i-)[hx]-265(?:-HEVC)?", "Hi444PP", 10, false⟩,
   ⟨"videoProfile", "HEVC(-i)", "Hi444PP", 10, false⟩,
   ⟨"videoProfile", "(i-)HEVC", "Hi444PP", 10, false⟩,
   ⟨"videoProfile", "Rv\\d\x7b2\x7d(-4)", "Hi444PP", 10, false⟩,
   ⟨"videoProfile", "(4-)Rv\\d\x7b2\x7d", "Hi444PP", 10, false⟩,
   ⟨"videoProfile", "Mpeg2(-4)", "Hi444PP", 10, false⟩,
   ⟨"videoProfile", "(4-)Mpeg2", "Hi444PP", 10, false⟩,
   ⟨"videoProfile", "DVDivX(-4)", "Hi444PP", 10, false⟩,
   ⟨"videoProfile", "(4-)DVDivX", "Hi444PP", 10, false⟩,
   ⟨"videoProfile", "DivX(-4)", "Hi444PP", 10, false⟩,
   ⟨"videoProfile", "(4-)DivX", "Hi444PP", 10, false⟩,
   ⟨"videoProfile", "XviD(-4)", "Hi444PP", 10, false⟩,
   ⟨"videoProfile", "(4-)XviD", "Hi444PP", 10, false⟩,
   ⟨"videoProfile", "[hx]-264(?:-AVC)?(-4)", "Hi444PP", 10, false⟩,
   ⟨"videoProfile", "(4-)[hx]-264(?:-AVC)?", "Hi444PP", 10, false⟩,
   ⟨"videoProfile", "MPEG-4(?:-AVC)(-4)", "Hi444PP", 10, false⟩,
   ⟨"videoProfile", "(4-)MPEG-4(?:-AVC)", "Hi444PP", 10, false⟩,
   ⟨"videoProfile", "[hx]-265(?:-HEVC)?(-4)", "Hi444PP", 10, false⟩,
   ⟨"videoProfile", "(4-)[hx]-265(?:-HEVC)?", "Hi444PP", 10, false⟩,
   ⟨"videoProfile", "HEVC(-4)", "Hi444PP", 10, false⟩,
   ⟨"videoProfile", "(4-)HEVC", "Hi444PP", 10, false⟩]

/-- Slice 7 of the entries appended by the videoProfile composition stage -/
def builtBlock5Part7 : Container :=
  [⟨"videoProfile", "Rv\\d\x7b2\x7d(-4)", "Hi444PP", 10, false⟩,
   ⟨"videoProfile", "(4-)Rv\\d\x7b2\x7d", "Hi444PP", 10, false⟩,
   ⟨"videoProfile", "Mpeg2(-4)", "Hi444PP", 10, false⟩,
   ⟨"videoProfile", "(4-)Mpeg2", "Hi444PP", 10, false⟩,
   ⟨"videoProfile", "DVDivX(-4)", "Hi444PP", 10, false⟩,
   ⟨"videoProfile", "(4-)DVDivX", "Hi444PP", 10, false⟩,
   ⟨"videoProfile", "DivX(-4)", "Hi444PP", 10, false⟩,
   ⟨"videoProfile", "(4-)DivX", "Hi444PP", 10, false⟩,
   ⟨"videoProfile", "XviD(-4)", "Hi444PP", 10, false⟩,
   ⟨"videoProfile", "(4-)XviD", "Hi444PP", 10, false⟩,
   ⟨"videoProfile", "[hx]-264(?:-AVC)?(-4)", "Hi444PP", 10, false⟩,
   ⟨"videoProfile", "(4-)[hx]-264(?:-AVC)?", "Hi444PP", 10, false⟩,
   ⟨"videoProfile", "MPEG-4(?:-AVC)(-4)", "Hi444PP", 10, false⟩,
   ⟨"videoProfile", "(4-)MPEG-4(?:-AVC)", "Hi444PP", 10, false⟩,
   ⟨"videoProfile", "[hx]-265(?:-HEVC)?(-4)", "Hi444PP", 10, false⟩,
   ⟨"videoProfile", "(4-)[hx]-265(?:-HEVC)?", "Hi444PP", 10, false⟩,
   ⟨"videoProfile", "HEVC(-4)", "Hi444PP", 10, false⟩,
   ⟨"videoProfile", "(4-)HEVC", "Hi444PP", 10, false⟩,
   ⟨"videoProfile", "Rv\\d\x7b2\x7d(-4)", "Hi444PP", 10, false⟩,
   ⟨"videoProfile", "(4-)Rv\\d\x7b2\x7d", "Hi444PP", 10, false⟩,
   ⟨"videoProfile", "Mpeg2(-4)", "Hi444PP", 10, false⟩,
   ⟨"videoProfile", "(4-)Mpeg2", "Hi444PP", 10, false⟩,
   ⟨"videoProfile", "DVDivX(-4)", "Hi444PP", 10, false⟩,
   ⟨"videoProfile", "(4-)DVDivX", "Hi444PP", 10, false⟩,
   ⟨"videoProfile", "DivX(-4)", "Hi444PP", 10, false⟩,
   ⟨"videoProfile", "(4-)DivX", "Hi444PP", 10, false⟩,
   ⟨"videoProfile", "XviD(-4)", "Hi444PP", 10, false⟩,
   ⟨"videoProfile", "(4-)XviD", "Hi444PP", 10, false⟩,
   ⟨"videoProfile", "[hx]-264(?:-AVC)?(-4)", "Hi444PP", 10, false⟩,
   ⟨"videoProfile", "(4-)[hx]-264(?:-AVC)?", "Hi444PP", 10, false⟩,
   ⟨"videoProfile", "MPEG-4(?:-AVC)(-4)", "Hi444PP", 10, false⟩,
   ⟨"videoProfile", "(4-)MPEG-4(?:-AVC)", "Hi444PP", 10, false⟩,
   ⟨"videoProfile", "[hx]-265(?:-HEVC)?(-4)", "Hi444PP", 10, false⟩,
   ⟨"videoProfile", "(4-)[hx]-265(?:-HEVC)?", "Hi444PP", 10, false⟩,
   ⟨"videoProfile", "HEVC(-4)", "Hi444PP", 10, false⟩,
   ⟨"videoProfile", "(4-)HEVC", "Hi444PP", 10, false⟩]

/-- Slice 8 of the entries appended by the videoProfile composition stage -/
def builtBlock5Part8 : Container :=
  [⟨"videoProfile", "Rv\\d\x7b2\x7d(-P)", "Hi444PP", 10, false⟩,
   ⟨"videoProfile", "(P-)Rv\\d\x7b2\x7d", "Hi444PP", 10, false⟩,
   ⟨"videoProfile", "Mpeg2(-P)", "Hi444PP", 10, false⟩,
   ⟨"videoProfile", "(P-)Mpeg2", "Hi444PP", 10, false⟩,
   ⟨"videoProfile", "DVDivX(-P)", "Hi444PP", 10, false⟩,
   ⟨"videoProfile", "(P-)DVDivX", "Hi444PP", 10, false⟩,
   ⟨"videoProfile", "DivX(-P)", "Hi444PP", 10, false⟩,
   ⟨"videoProfile", "(P-)DivX", "Hi444PP", 10, false⟩,
   ⟨"videoProfile", "XviD(-P)", "Hi444PP", 10, false⟩,
   ⟨"videoProfile", "(P-)XviD", "Hi444PP", 10, false⟩,
   ⟨"videoProfile", "[hx]-264(?:-AVC)?(-P)", "Hi444PP", 10, false⟩,
   ⟨"videoProfile", "(P-)[hx]-264(?:-AVC)?", "Hi444PP", 10, false⟩,
   ⟨"videoProfile", "MPEG-4(?:-AVC)(-P)", "Hi444PP", 10, false⟩,
   ⟨"videoProfile", "(P-)MPEG-4(?:-AVC)", "Hi444PP", 10, false⟩,
   ⟨"videoProfile", "[hx]-265(?:-HEVC)?(-P)", "Hi444PP", 10, false⟩,
   ⟨"videoProfile", "(P-)[hx]-265(?:-HEVC)?", "Hi444PP", 10, false⟩,
   ⟨"videoProfile", "HEVC(-P)", "Hi444PP", 10, false⟩,
   ⟨"videoProfile", "(P-)HEVC", "Hi444PP", 10, false⟩,
   ⟨"videoProfile", "Rv\\d\x7b2\x7d(-P)", "Hi444PP", 10, false⟩,
   ⟨"videoProfile", "(P-)Rv\\d\x7b2\x7d", "Hi444PP", 10, false⟩,
   ⟨"videoProfile", "Mpeg2(-P)", "Hi444PP", 10, false⟩,
   ⟨"videoProfile", "(P-)Mpeg2", "Hi444PP", 10, false⟩,
   ⟨"videoProfile", "DVDivX(-P)", "Hi444PP", 10, false⟩,
   ⟨"videoProfile", "(P-)DVDivX", "Hi444PP", 10, false⟩,
   ⟨"videoProfile", "DivX(-P)", "Hi444PP", 10, false⟩,
   ⟨"videoProfile", "(P-)DivX", "Hi444PP", 10, false⟩,
   ⟨"videoProfile", "XviD(-P)", "Hi444PP", 10, false⟩,
   ⟨"videoProfile", "(P-)XviD", "Hi444PP", 10, false⟩,
   ⟨"videoProfile", "[hx]-264(?:-AVC)?(-P)", "Hi444PP", 10, false⟩,
   ⟨"videoProfile", "(P-)[hx]-264(?:-AVC)?", "Hi444PP", 10, false⟩,
   ⟨"videoProfile", "MPEG-4(?:-AVC)(-P)", "Hi444PP", 10, false⟩,
   ⟨"videoProfile", "(P-)MPEG-4(?:-AVC)", "Hi444PP", 10, false⟩,
   ⟨"videoProfile", "[hx]-265(?:-HEVC)?(-P)", "Hi444PP", 10, false⟩,
   ⟨"videoProfile", "(P-)[hx]-265(?:-HEVC)?", "Hi444PP", 10, false⟩,
   ⟨"videoProfile", "HEVC(-P)", "Hi444PP", 10, false⟩,
   ⟨"videoProfile", "(P-)HEVC", "Hi444PP", 10, false⟩]

/-- The entries appended by the videoProfile composition stage. -/
def builtBlock5 : Container :=
  builtBlock5Part1 ++ builtBlock5Part2 ++ builtBlock5Part3 ++ builtBlock5Part4 ++ builtBlock5Part5 ++ builtBlock5Part6 ++ builtBlock5Part7 ++ builtBlock5Part8

/-- The entries appended by the videoApi stage -/
def builtBlock6 : Container :=
  [⟨"videoApi", "DXVA", "DXVA", 10, false⟩]

/-- The entries appended by the audioCodec stage -/
def builtBlock7 : Container :=
  [⟨"audioCodec", "MP3", "MP3", 10, false⟩,
   ⟨"audioCodec", "DD", "DolbyDigital", 10, false⟩,
   ⟨"audioCodec", "AAC", "AAC", 10, false⟩,
   ⟨"audioCodec", "AC3", "AC3", 10, false⟩,
   ⟨"audioCodec", "FLAC", "Flac", 10, false⟩,
   ⟨"audioCodec", "DTS", "DTS", 10, false⟩,
   ⟨"audioCodec", "True-HD", "TrueHD", 10, false⟩]

/-- The entries appended by the audioProfile composition stage -/
def builtBlock8 : Container :=
  [⟨"audioProfile", "DTS(-HD)", "HD", 10, false⟩,
   ⟨"audioProfile", "(HD-)DTS", "HD", 10, false⟩,
   ⟨"audioProfile", "DTS(-HD-MA)", "HDMA", 10, false⟩,
   ⟨"audioProfile", "(HD-MA-)DTS", "HDMA", 10, false⟩,
   ⟨"audioProfile", "AAC(-HE)", "HE", 10, false⟩,
   ⟨"audioProfile", "(HE-)AAC", "HE", 10, false⟩,
   ⟨"audioProfile", "AAC(-LC)", "LC", 10, false⟩,
   ⟨"audioProfile", "(LC-)AAC", "LC", 10, false⟩,
   ⟨"audioProfile", "AC3(-HQ)", "HQ", 10, false⟩,
   ⟨"audioProfile", "(HQ-)AC3", "HQ", 10, false⟩]

/-- The entries appended by the audioChannels stage -/
def builtBlock9 : Container :=
  [⟨"audioChannels", "7[\\W_]1", "7.1", 10, false⟩,
   ⟨"audioChannels", "7ch", "7.1", 10, false⟩,
   ⟨"audioChannels", "5[\\W_]1", "5.1", 10, false⟩,
   ⟨"audioChannels", "5ch", "5.1", 10, false⟩,
   ⟨"audioChannels", "2[\\W_]0", "2.0", 10, false⟩,
   ⟨"audioChannels", "2ch", "2.0", 10, false⟩,
   ⟨"audioChannels", "stereo", "2.0", 10, false⟩,
   ⟨"audioChannels", "1[\\W_]0", "1.0", 10, false⟩,
   ⟨"audioChannels", "1ch", "1.0", 10, false⟩,
   ⟨"audioChannels", "mono", "1.0", 10, false⟩]

/-- The entries appended by the episodeFormat stage -/
def builtBlock10 : Container :=
  [⟨"episodeFormat", "Minisodes?", "Minisode", 10, false⟩]

/-- The entries appended by the other property-dict stage -/
def builtBlock11 : Container :=
  [⟨"other", "Audio-Fix", "AudioFix", 10, false⟩,
   ⟨"other", "Audio-Fixed", "AudioFix", 10, false⟩,
   ⟨"other", "Sync-Fix", "SyncFix", 10, false⟩,
   ⟨"other", "Sync-Fixed", "SyncFix", 10, false⟩,
   ⟨"other", "Dual-Audio", "DualAudio", 10, false⟩,
   ⟨"other", "ws", "WideScreen", 10, false⟩,
   ⟨"other", "wide-screen", "WideScreen", 10, false⟩]

/-- The entries appended by the strict canonical other stage -/
def builtBlock12 : Container :=
  [⟨"other", "Proper", "Proper", 10, false⟩,
   ⟨"other", "Repack", "Repack", 10, false⟩,
   ⟨"other", "R5", "R5", 10, false⟩,
   ⟨"other", "Screener", "Screener", 10, false⟩,
   ⟨"other", "3D", "3D", 10, false⟩,
   ⟨"other", "Fix", "Fix", 10, false⟩,
   ⟨"other", "HD", "HD", 10, false⟩,
   ⟨"other", "HQ", "HQ", 10, false⟩,
   ⟨"other", "DDC", "DDC", 10, false⟩]

/-- The entries appended by the weak canonical other stage -/
def builtBlock13 : Container :=
  [⟨"other", "Limited", "Limited", 10, true⟩,
   ⟨"other", "Complete", "Complete", 10, true⟩,
   ⟨"other", "Classic", "Classic", 10, true⟩,
   ⟨"other", "Unrated", "Unrated", 10, true⟩,
   ⟨"other", "LiNE", "LiNE", 10, true⟩,
   ⟨"other", "Bonus", "Bonus", 10, true⟩,
   ⟨"other", "Trailer", "Trailer", 10, true⟩]

/-- The entries appended by the Extras stage -/
def builtBlock14 : Container :=
  [⟨"other", "Extras?", "Extra", 10, false⟩]

/-- The entries appended by the format-Screener composition stage -/
def builtBlock15 : Container :=
  [⟨"other", "VHS(-?Scr(?:eener)?)", "Screener", 10, false⟩,
   ⟨"other", "CAM(-?Scr(?:eener)?)", "Screener", 10, false⟩,
   ⟨"other", "CAMRip(-?Scr(?:eener)?)", "Screener", 10, false⟩,
   ⟨"other", "TS(-?Scr(?:eener)?)", "Screener", 10, false⟩,
   ⟨"other", "WORKPRINT(-?Scr(?:eener)?)", "Screener", 10, false⟩,
   ⟨"other", "WP(-?Scr(?:eener)?)", "Screener", 10, false⟩,
   ⟨"other", "TELECINE(-?Scr(?:eener)?)", "Screener", 10, false⟩,
   ⟨"other", "TC(-?Scr(?:eener)?)", "Screener", 10, false⟩,
   ⟨"other", "PPV(-?Scr(?:eener)?)", "Screener", 10, false⟩,
   ⟨"other", "PPV-Rip(-?Scr(?:eener)?)", "Screener", 10, false⟩,
   ⟨"other", "DVD(-?Scr(?:eener)?)", "Screener", 10, false⟩,
   ⟨"other", "DVD-Rip(-?Scr(?:eener)?)", "Screener", 10, false⟩,
   ⟨"other", "VIDEO-TS(-?Scr(?:eener)?)", "Screener", 10, false⟩,
   ⟨"other", "DVB-Rip(-?Scr(?:eener)?)", "Screener", 10, false⟩,
   ⟨"other", "DVB(-?Scr(?:eener)?)", "Screener", 10, false⟩,
   ⟨"other", "PD-TV(-?Scr(?:eener)?)", "Screener", 10, false⟩,
   ⟨"other", "HD-TV(-?Scr(?:eener)?)", "Screener", 10, false⟩,
   ⟨"other", "VOD(-?Scr(?:eener)?)", "Screener", 10, false⟩,
   ⟨"other", "VOD-Rip(-?Scr(?:eener)?)", "Screener", 10, false⟩,
   ⟨"other", "WEB-Rip(-?Scr(?:eener)?)", "Screener", 10, false⟩,
   ⟨"other", "WEB-DL(-?Scr(?:eener)?)", "Screener", 10, false⟩,
   ⟨"other", "HD-(?:DVD)?-Rip(-?Scr(?:eener)?)", "Screener", 10, false⟩,
   ⟨"other", "HD-DVD(-?Scr(?:eener)?)", "Screener", 10, false⟩,
   ⟨"other", "Blu-ray(-?Scr(?:eener)?)", "Screener", 10, false⟩,
   ⟨"other", "B[DR](-?Scr(?:eener)?)", "Screener", 10, false⟩,
   ⟨"other", "B[DR]-Rip(-?Scr(?:eener)?)", "Screener", 10, false⟩,
   ⟨"other", "BD[59](-?Scr(?:eener)?)", "Screener", 10, false⟩,
   ⟨"other", "BD25(-?Scr(?:eener)?)", "Screener", 10, false⟩,
   ⟨"other", "BD50(-?Scr(?:eener)?)", "Screener", 10, false⟩]

/-- The literal container value after build stage 1. -/
def builtStage1 : Container :=
  builtBlock1

/-- The literal container value after build stage 2. -/
def builtStage2 : Container :=
  builtStage1 ++ builtBlock2

/-- The literal container value after build stage 3. -/
def builtStage3 : Container :=
  builtStage2 ++ builtBlock3

/-- The literal container value after build stage 4. -/
def builtStage4 : Container :=
  builtStage3 ++ builtBlock4

/-- The literal container value after build stage 5. -/
def builtStage5 : Container :=
  builtStage4 ++ builtBlock5

/-- The literal container value after build stage 6. -/
def builtStage6 : Container :=
  builtStage5 ++ builtBlock6

/-- The literal container value after build stage 7. -/
def builtStage7 : Container :=
  builtStage6 ++ builtBlock7

/-- The literal container value after build stage 8. -/
def builtStage8 : Container :=
  builtStage7 ++ builtBlock8

/-- The literal container value after build stage 9. -/
def builtStage9 : Container :=
  builtStage8 ++ builtBlock9

/-- The literal container value after build stage 10. -/
def builtStage10 : Container :=
  builtStage9 ++ builtBlock10

/-- The literal container value after build stage 11. -/
def builtStage11 : Container :=
  builtStage10 ++ builtBlock11

/-- The literal container value after build stage 12. -/
def builtStage12 : Container :=
  builtStage11 ++ builtBlock12

/-- The literal container value after build stage 13. -/
def builtStage13 : Container :=
  builtStage12 ++ builtBlock13

/-- The literal container value after build stage 14. -/
def builtStage14 : Container :=
  builtStage13 ++ builtBlock14

/-- The literal container value after build stage 15. -/
def builtStage15 : Container :=
  builtStage14 ++ builtBlock15

/-- The value of the built container, as a literal entry list assembled
from the per-stage blocks; certified against the registration sequence by
the per-stage evaluation theorems and `buildContainer_eval` below, and used
to keep later evaluations from re-running the build fold. -/
def builtEntries : Container :=
  builtStage15

/-- Build stage 1 evaluates to its literal container value. -/
theorem buildStage1_eval :
    regPropsDict [] "container" [("mp4", PropVal.pats ["MP4"])] = builtStage1 :=
  contBeq_sound _ _ (by rfl)

/-- Build stage 2 evaluates to its literal container value. -/
theorem buildStage2_eval :
    regPropsDict builtStage1 "format" formatPropsTable = builtStage2 :=
  contBeq_sound _ _ (by rfl)

/-- Build stage 3 evaluates to its literal container value. -/
theorem buildStage3_eval :
    regPropsDict builtStage2 "screenSize" screenSizeTable = builtStage3 :=
  contBeq_sound _ _ (by rfl)

/-- Build stage 4 evaluates to its literal container value. -/
theorem buildStage4_eval :
    regPropsDict builtStage3 "videoCodec" videoCodecTable = builtStage4 :=
  contBeq_sound _ _ (by rfl)

/-- Build stage 5 evaluates to its literal container value. -/
theorem buildStage5_eval :
    regVideoProfiles builtStage4 = builtStage5 :=
  contBeq_sound _ _ (by rfl)

/-- Build stage 6 evaluates to its literal container value. -/
theorem buildStage6_eval :
    regPropsDict builtStage5 "videoApi" [("DXVA", PropVal.pats ["DXVA"])] = builtStage6 :=
  contBeq_sound _ _ (by rfl)

/-- Build stage 7 evaluates to its literal container value. -/
theorem buildStage7_eval :
    regPropsDict builtStage6 "audioCodec" audioCodecTable = builtStage7 :=
  contBeq_sound _ _ (by rfl)

/-- Build stage 8 evaluates to its literal container value. -/
theorem buildStage8_eval :
    regAudioProfiles builtStage7 = builtStage8 :=
  contBeq_sound _ _ (by rfl)

/-- Build stage 9 evaluates to its literal container value. -/
theorem buildStage9_eval :
    regPropsDict builtStage8 "audioChannels" audioChannelsTable = builtStage9 :=
  contBeq_sound _ _ (by rfl)

/-- Build stage 10 evaluates to its literal container value. -/
theorem buildStage10_eval :
    regProp builtStage9 "episodeFormat" "Minisodes?" "Minisode" 10 false = builtStage10 :=
  contBeq_sound _ _ (by rfl)

/-- Build stage 11 evaluates to its literal container value. -/
theorem buildStage11_eval :
    regPropsDict builtStage10 "other" otherTable = builtStage11 :=
  contBeq_sound _ _ (by rfl)

/-- Build stage 12 evaluates to its literal container value. -/
theorem buildStage12_eval :
    regCanonical builtStage11 "other"
      ["Proper", "Repack", "R5", "Screener", "3D", "Fix", "HD", "HQ",
       "DDC"]
      false = builtStage12 :=
  contBeq_sound _ _ (by rfl)

/-- Build stage 13 evaluates to its literal container value. -/
theorem buildStage13_eval :
    regCanonical builtStage12 "other"
      ["Limited", "Complete", "Classic", "Unrated", "LiNE", "Bonus",
       "Trailer"]
      true = builtStage13 :=
  contBeq_sound _ _ (by rfl)

/-- Build stage 14 evaluates to its literal container value. -/
theorem buildStage14_eval :
    regProp builtStage13 "other" "Extras?" "Extra" 10 false = builtStage14 :=
  contBeq_sound _ _ (by rfl)

/-- Build stage 15 evaluates to its literal container value. -/
theorem buildStage15_eval :
    regScreenerCompounds builtStage14 = builtStage15 :=
  contBeq_sound _ _ (by rfl)

/-- The registration sequence produces exactly the literal entry list,
assembled stage by stage. -/
theorem buildContainer_eval : buildContainer = builtEntries := by
  unfold buildContainer
  rw [buildStage1_eval, buildStage2_eval, buildStage3_eval,
    buildStage4_eval, buildStage5_eval, buildStage6_eval, buildStage7_eval,
    buildStage8_eval, buildStage9_eval, buildStage10_eval,
    buildStage11_eval, buildStage12_eval, buildStage13_eval,
    buildStage14_eval, buildStage15_eval]
  rfl

/-- The categories of the built container, in first-registration order. -/
theorem containerCats_eval :
    containerCats buildContainer =
      ["container", "format", "screenSize", "videoCodec", "videoProfile",
       "videoApi", "audioCodec", "audioProfile", "audioChannels",
       "episodeFormat", "other"] := by
  rw [buildContainer_eval]
  rfl

/-- Every pattern source registered at build time compiles, so the modelled
`InvalidPatternError` is never raised by the domain table. -/
theorem buildContainer_patterns_compile :
    buildContainer.all (fun e => (parseRx e.pattern).isSome) = true := by
  rw [buildContainer_eval]
  rfl



/-! ## Per-category views of the built container

The stage blocks of the literal container value are exactly the per-category
entry collections; these equalities let later evaluations work on one
category's literal block instead of re-filtering the whole container. -/

/-- The format entries are the format stage block. -/
theorem fmtEntries_eq_block : entriesOf "format" = builtBlock2 := by
  unfold entriesOf getProps
  rw [buildContainer_eval]
  rfl

/-- The videoCodec entries are the videoCodec stage block. -/
theorem vcEntries_eq_block : entriesOf "videoCodec" = builtBlock4 := by
  unfold entriesOf getProps
  rw [buildContainer_eval]
  rfl

/-- The videoProfile entries are the videoProfile stage block. -/
theorem vpEntries_eq_block : entriesOf "videoProfile" = builtBlock5 := by
  unfold entriesOf getProps
  rw [buildContainer_eval]
  rfl

/-- The audioCodec entries are the audioCodec stage block. -/
theorem acEntries_eq_block : entriesOf "audioCodec" = builtBlock7 := by
  unfold entriesOf getProps
  rw [buildContainer_eval]
  rfl

/-- The audioProfile entries are the audioProfile stage block. -/
theorem apEntries_eq_block : entriesOf "audioProfile" = builtBlock8 := by
  unfold entriesOf getProps
  rw [buildContainer_eval]
  rfl

/-- The other entries are the five other-stage blocks in order. -/
theorem otherEntries_eq_block :
    entriesOf "other" =
      builtBlock11 ++ builtBlock12 ++ builtBlock13 ++ builtBlock14 ++
        builtBlock15 := by
  unfold entriesOf getProps
  rw [buildContainer_eval]
  rfl

/-! ## The claims -/

/-- The format-category part of the guess on the text `"TELESYNC"`. -/
theorem c1_telesync_eval :
    guessFor "format" "TELESYNC" = [] := by
  unfold guessFor
  rw [buildContainer_eval]
  rfl

/-- The format-category part of the guess on the text `"TS"`. -/
theorem c1_ts_eval :
    guessFor "format" "TS" = [("format", "Telesync", 2)] := by
  unfold guessFor
  rw [buildContainer_eval]
  rfl

/-- C1: the source writes the `format` dict with the key `'Telesync'` twice
(once for `['TELESYNC', 'PDVD']` at default confidence, once for `['TS']` at
confidence 0.2), so by Python dict-literal semantics only the `TS` group at
confidence 0.2 (here `2` tenths) is ever registered: the canonical form
`Telesync` has exactly one registered pattern, `TELESYNC` itself yields no
format guess, and `TS` yields a Telesync guess at confidence 0.2, not 1.0. -/
theorem c1_telesync_registration :
    ((entriesOf "format").filter (fun e => e.canonical = "Telesync")).map
        (fun e => (e.pattern, e.conf)) = [("TS", 2)] ∧
    (guessProperties "TELESYNC").filter (fun g => g.1 = "format") = [] ∧
    (guessProperties "TS").filter (fun g => g.1 = "format") =
      [("format", "Telesync", 2)] := by
  refine ⟨by rw [fmtEntries_eq_block]; rfl, ?_, ?_⟩
  · rw [guessProperties_cat "format" "TELESYNC"
      (by rw [containerCats_eval]; decide)]
    exact c1_telesync_eval
  · rw [guessProperties_cat "format" "TS"
      (by rw [containerCats_eval]; decide)]
    exact c1_ts_eval

/-- The videoProfile-category part of the guess on `"h264-10bit"`. -/
theorem c3_hyphen_eval :
    guessFor "videoProfile" "h264-10bit" =
      [("videoProfile", "10bit", 10)] := by
  unfold guessFor
  rw [buildContainer_eval]
  rfl

/-- The videoProfile-category part of the guess on `"h264 10bit"`. -/
theorem c3_space_eval :
    guessFor "videoProfile" "h264 10bit" = [] := by
  unfold guessFor
  rw [buildContainer_eval]
  rfl

/-- C3: under the derived videoProfile patterns, the hyphen-joined
`"h264-10bit"` yields the guess `videoProfile = "10bit"` (the profile's
canonical form, at the default confidence `10` tenths, i.e. 1.0), while the
space-separated `"h264 10bit"` yields no videoProfile guess at all. -/
theorem c3_derived_adjacency :
    (guessProperties "h264-10bit").filter (fun g => g.1 = "videoProfile") =
      [("videoProfile", "10bit", 10)] ∧
    (guessProperties "h264 10bit").filter (fun g => g.1 = "videoProfile") =
      [] := by
  constructor
  · rw [guessProperties_cat "videoProfile" "h264-10bit"
      (by rw [containerCats_eval]; decide)]
    exact c3_hyphen_eval
  · rw [guessProperties_cat "videoProfile" "h264 10bit"
      (by rw [containerCats_eval]; decide)]
    exact c3_space_eval

/-- The `(category, canonical_form)` pairs of the domain table for which the
literal canonical form, on its own with string-edge boundaries, does NOT
round-trip to itself: the two derived categories (whose compound patterns
all require an adjacent base-codec token), the two canonical forms whose
pattern groups were lost to duplicate dict keys (`Telesync`, `480p`), the
forms whose only patterns spell a different token (`4K` is matched as
`2160`, `Real` as `Rv\d\x7b2\x7d`, `DolbyDigital` as `DD`), and `HD-DVD`,
whose text also matches the earlier-registered `DVD` pattern, which wins the
same-confidence overlap tie by registration order. -/
def roundTripExceptions : List (String × String) :=
  [("format", "Telesync"), ("format", "HD-DVD"), ("screenSize", "480p"),
   ("screenSize", "4K"), ("videoCodec", "Real"),
   ("audioCodec", "DolbyDigital"),
   ("videoProfile", "BS"), ("videoProfile", "EP"), ("videoProfile", "MP"),
   ("videoProfile", "HP"), ("videoProfile", "10bit"),
   ("videoProfile", "Hi422P"), ("videoProfile", "Hi444PP"),
   ("audioProfile", "HD"), ("audioProfile", "HDMA"), ("audioProfile", "HE"),
   ("audioProfile", "LC"), ("audioProfile", "HQ")]

/-- The round-trip property of one registered pair: matching the literal
canonical form itself yields a non-empty guess for the category, every
produced canonical form is the pair's canonical form, and some produced
confidence is at least the confidence of some registered pattern of the
pair. -/
def roundTripHolds (p : String × String) : Prop :=
  (¬ guessFor p.1 p.2 = []) ∧
  (∀ g ∈ guessFor p.1 p.2, g.2.1 = p.2) ∧
  (∃ g ∈ guessFor p.1 p.2, ∃ e ∈ buildContainer,
    e.category = p.1 ∧ e.canonical = p.2 ∧ e.conf ≤ g.2.2)

/-- The non-excepted registered pairs, sliced for stepwise verification:
container, format and screenSize pairs. -/
def okPairs1 : List (String × String) :=
  [("container", "mp4"), ("format", "VHS"), ("format", "Cam"),
   ("format", "Workprint"), ("format", "Telecine"), ("format", "PPV"),
   ("format", "DVD"), ("format", "DVB"), ("format", "HDTV"),
   ("format", "VOD"), ("format", "WEBRip"), ("format", "WEB-DL"),
   ("format", "BluRay"), ("screenSize", "360p"), ("screenSize", "368p"),
   ("screenSize", "576p"), ("screenSize", "720p"), ("screenSize", "900p"),
   ("screenSize", "1080i"), ("screenSize", "1080p")]

/-- The non-excepted registered pairs: codec, api, channel and episode
pairs. -/
def okPairs2 : List (String × String) :=
  [("videoCodec", "Mpeg2"), ("videoCodec", "DivX"), ("videoCodec", "XviD"),
   ("videoCodec", "h264"), ("videoCodec", "h265"), ("videoApi", "DXVA"),
   ("audioCodec", "MP3"), ("audioCodec", "AAC"), ("audioCodec", "AC3"),
   ("audioCodec", "Flac"), ("audioCodec", "DTS"), ("audioCodec", "TrueHD"),
   ("audioChannels", "7.1"), ("audioChannels", "5.1"),
   ("audioChannels", "2.0"), ("audioChannels", "1.0"),
   ("episodeFormat", "Minisode")]

/-- The non-excepted registered pairs: first seven other-category pairs. -/
def okPairs3 : List (String × String) :=
  [("other", "AudioFix"), ("other", "SyncFix"), ("other", "DualAudio"),
   ("other", "WideScreen"), ("other", "Proper"), ("other", "Repack"),
   ("other", "R5")]

/-- The non-excepted registered pairs: next seven other-category pairs. -/
def okPairs4 : List (String × String) :=
  [("other", "Screener"), ("other", "3D"), ("other", "Fix"),
   ("other", "HD"), ("other", "HQ"), ("other", "DDC"), ("other", "Limited")]

/-- The non-excepted registered pairs: last seven other-category pairs. -/
def okPairs5 : List (String × String) :=
  [("other", "Complete"), ("other", "Classic"), ("other", "Unrated"),
   ("other", "LiNE"), ("other", "Bonus"), ("other", "Trailer"),
   ("other", "Extra")]

/-- Round trip on the first slice. -/
theorem roundTrip_ok1 : ∀ p ∈ okPairs1, roundTripHolds p := by
  unfold roundTripHolds guessFor
  rw [buildContainer_eval]
  decide

/-- Round trip on the second slice. -/
theorem roundTrip_ok2 : ∀ p ∈ okPairs2, roundTripHolds p := by
  unfold roundTripHolds guessFor
  rw [buildContainer_eval]
  decide

/-- Round trip on the third slice. -/
theorem roundTrip_ok3 : ∀ p ∈ okPairs3, roundTripHolds p := by
  unfold roundTripHolds guessFor
  rw [buildContainer_eval]
  decide

/-- Round trip on the fourth slice. -/
theorem roundTrip_ok4 : ∀ p ∈ okPairs4, roundTripHolds p := by
  unfold roundTripHolds guessFor
  rw [buildContainer_eval]
  decide

/-- Round trip on the fifth slice. -/
theorem roundTrip_ok5 : ∀ p ∈ okPairs5, roundTripHolds p := by
  unfold roundTripHolds guessFor
  rw [buildContainer_eval]
  decide

/-- Every non-excepted registered pair lies in one of the five slices. -/
theorem roundTrip_cover :
    ∀ p ∈ registeredPairs, ¬ p ∈ roundTripExceptions →
      p ∈ okPairs1 ++ (okPairs2 ++ (okPairs3 ++ (okPairs4 ++ okPairs5))) := by
  unfold registeredPairs
  rw [buildContainer_eval]
  decide

/-- C2 counterexample: `("screenSize", "4K")` is a registered pair of the
domain table, yet the literal text `"4K"` produces no screenSize guess at
all (the only pattern registered for `4K` matches the token `2160`), so the
round-trip property fails as stated. -/
theorem c2_round_trip_counterexample :
    ("screenSize", "4K") ∈ registeredPairs ∧
    guessFor "screenSize" "4K" = [] := by
  unfold registeredPairs guessFor
  rw [buildContainer_eval]
  exact ⟨by decide, by rfl⟩

/-- C2 (amended): for every `(category, canonical_form)` pair registered in
the domain table at build time, except the derived categories videoProfile
and audioProfile and the pairs `("format", "Telesync")`,
`("format", "HD-DVD")`, `("screenSize", "480p")`, `("screenSize", "4K")`,
`("videoCodec", "Real")` and `("audioCodec", "DolbyDigital")`, the literal
canonical form itself (string-edge boundaries) makes `find_properties`
followed by `as_guess` yield exactly that canonical form under that
category, with confidence at least the confidence of some registered
pattern of the pair. -/
theorem c2_round_trip_amended :
    ∀ p ∈ registeredPairs, ¬ p ∈ roundTripExceptions → roundTripHolds p := by
  intro p hp hne
  have hok := roundTrip_cover p hp hne
  rcases List.mem_append.mp hok with h | h
  · exact roundTrip_ok1 p h
  rcases List.mem_append.mp h with h2 | h2
  · exact roundTrip_ok2 p h2
  rcases List.mem_append.mp h2 with h3 | h3
  · exact roundTrip_ok3 p h3
  rcases List.mem_append.mp h3 with h4 | h4
  · exact roundTrip_ok4 p h4
  · exact roundTrip_ok5 p h4

/-- C2 witness: the amended round trip, instantiated at the registered pair
`("format", "BluRay")`. -/
theorem c2_round_trip_witness :
    roundTripHolds ("format", "BluRay") :=
  c2_round_trip_amended ("format", "BluRay")
    (by unfold registeredPairs; rw [buildContainer_eval]; decide)
    (by decide)

/-- The derived videoProfile entry list, as generated at build time: for
every profile of the declared table, every iterated token variant and every
videoCodec base entry, the two compound entries — base pattern before the
token and token before the base pattern — both carrying the profile's
canonical form. -/
def vpGenerated : Container :=
  (pyDict videoProfilesTable).flatMap (fun pt =>
    (iterVariants pt.2).flatMap (fun tok =>
      (entriesOf "videoCodec").flatMap (fun b =>
        [⟨"videoProfile", b.pattern ++ "(-" ++ tok ++ ")", pt.1, 10, false⟩,
         ⟨"videoProfile", "(" ++ tok ++ "-)" ++ b.pattern, pt.1, 10,
           false⟩])))

/-- The derived audioProfile entry list, as generated at build time: only
the audioCodec base entries whose canonical form equals the declared codec
key contribute, and every generated entry carries the profile's canonical
form. -/
def apGenerated : Container :=
  (pyDict audioProfilesTable).flatMap (fun ap =>
    (pyDict ap.2).flatMap (fun pt =>
      (iterVariants pt.2).flatMap (fun tok =>
        (getPropsCanon buildContainer "audioCodec" ap.1).flatMap (fun b =>
          [⟨"audioProfile", b.pattern ++ "(-" ++ tok ++ ")", pt.1, 10,
             false⟩,
           ⟨"audioProfile", "(" ++ tok ++ "-)" ++ b.pattern, pt.1, 10,
             false⟩]))))

/-- The generated videoProfile list evaluates to the videoProfile stage
block. -/
theorem vpGenerated_eval : vpGenerated = builtBlock5 := by
  unfold vpGenerated
  rw [vcEntries_eq_block]
  rfl

/-- The generated audioProfile list evaluates to the audioProfile stage
block. -/
theorem apGenerated_eval : apGenerated = builtBlock8 := by
  unfold apGenerated getPropsCanon
  rw [buildContainer_eval]
  rfl

/-- C4: the derived categories are populated entirely at build time: the
videoProfile entries are exactly the two compound entries (base-then-token
and token-then-base) for every videoCodec entry and every iterated profile
token variant, and the audioProfile entries likewise for every audioCodec
entry whose canonical form equals the declared codec key; every derived
entry carries the profile's canonical form and never a base codec's
canonical form. -/
theorem c4_derived_pattern_build :
    entriesOf "videoProfile" = vpGenerated ∧
    (∀ e ∈ entriesOf "videoProfile",
      e.canonical ∈ videoProfilesTable.map Prod.fst ∧
      ¬ e.canonical ∈ (entriesOf "videoCodec").map (fun b => b.canonical)) ∧
    entriesOf "audioProfile" = apGenerated ∧
    (∀ e ∈ entriesOf "audioProfile",
      e.canonical ∈ audioProfilesTable.flatMap
          (fun ap => ap.2.map Prod.fst) ∧
      ¬ e.canonical ∈ (entriesOf "audioCodec").map (fun b => b.canonical))
    := by
  refine ⟨vpEntries_eq_block.trans vpGenerated_eval.symm, ?_,
    apEntries_eq_block.trans apGenerated_eval.symm, ?_⟩
  · rw [vpEntries_eq_block, vcEntries_eq_block]
    decide
  · rw [apEntries_eq_block, acEntries_eq_block]
    decide

/-- C4 witness: the canonical-form facts at the first compound videoProfile
entry generated from the `Real` base pattern and the profile token `BS`. -/
theorem c4_derived_pattern_build_witness :
    (⟨"videoProfile", "Rv\\d\x7b2\x7d(-BS)", "BS", 10, false⟩ :
        PatternEntry).canonical ∈ videoProfilesTable.map Prod.fst ∧
    ¬ (⟨"videoProfile", "Rv\\d\x7b2\x7d(-BS)", "BS", 10, false⟩ :
        PatternEntry).canonical ∈
      (entriesOf "videoCodec").map (fun b => b.canonical) :=
  c4_derived_pattern_build.2.1
    ⟨"videoProfile", "Rv\\d\x7b2\x7d(-BS)", "BS", 10, false⟩
    (by rw [vpEntries_eq_block]; decide)

/-- C9: the `_videoProfiles` entry for `Hi444PP` is a bare string, so the
build loop iterates its characters: the variants are the seven
one-character strings, the registry holds compound videoProfile patterns
pairing each character with every videoCodec base pattern, and no
videoProfile pattern contains the whole token `Hi444PP`. -/
theorem c9_hi444pp_characters :
    iterVariants (PyStrs.strv "Hi444PP") =
      ["H", "i", "4", "4", "4", "P", "P"] ∧
    (∀ ch ∈ ["H", "i", "4", "P"], ∀ b ∈ entriesOf "videoCodec",
      (∃ e ∈ entriesOf "videoProfile",
        e.pattern = b.pattern ++ "(-" ++ ch ++ ")" ∧
        e.canonical = "Hi444PP") ∧
      (∃ e ∈ entriesOf "videoProfile",
        e.pattern = "(" ++ ch ++ "-)" ++ b.pattern ∧
        e.canonical = "Hi444PP")) ∧
    (∀ e ∈ entriesOf "videoProfile",
      strOccurs "Hi444PP" e.pattern = false) := by
  refine ⟨rfl, ?_, ?_⟩
  · rw [vpEntries_eq_block, vcEntries_eq_block]
    decide
  · rw [vpEntries_eq_block]
    decide

/-- C9 witness: the single-character compounds for `H` over the `Mpeg2`
base pattern. -/
theorem c9_hi444pp_characters_witness :
    (∃ e ∈ entriesOf "videoProfile",
      e.pattern = "Mpeg2(-H)" ∧ e.canonical = "Hi444PP") ∧
    (∃ e ∈ entriesOf "videoProfile",
      e.pattern = "(H-)Mpeg2" ∧ e.canonical = "Hi444PP") :=
  c9_hi444pp_characters.2.1 "H" (by decide)
    ⟨"videoCodec", "Mpeg2", "Mpeg2", 10, false⟩
    (by rw [vcEntries_eq_block]; decide)

/-- The format-category part of the guess on `"BluRay-Screener"`. -/
theorem c10_format_eval :
    guessFor "format" "BluRay-Screener" = [("format", "BluRay", 10)] := by
  unfold guessFor
  rw [buildContainer_eval]
  rfl

/-- The other-category part of the guess on `"BluRay-Screener"`. -/
theorem c10_other_eval :
    guessFor "other" "BluRay-Screener" = [("other", "Screener", 10)] := by
  unfold guessFor
  rw [buildContainer_eval]
  rfl

/-- C10: after the `format` category is populated, every format entry gets
one additional `other` entry whose pattern is the format pattern followed by
`(-?Scr(?:eener)?)` with canonical form `Screener`; consequently the single
token `"BluRay-Screener"` contributes to both categories at once: format
`BluRay` and other `Screener`. -/
theorem c10_format_screener_compounds :
    (∀ e ∈ entriesOf "format",
      ∃ e2 ∈ entriesOf "other",
        e2.pattern = e.pattern ++ "(-?Scr(?:eener)?)" ∧
        e2.canonical = "Screener") ∧
    (guessProperties "BluRay-Screener").filter (fun g => g.1 = "format") =
      [("format", "BluRay", 10)] ∧
    (guessProperties "BluRay-Screener").filter (fun g => g.1 = "other") =
      [("other", "Screener", 10)] := by
  refine ⟨?_, ?_, ?_⟩
  · rw [fmtEntries_eq_block, otherEntries_eq_block]
    decide
  · rw [guessProperties_cat "format" "BluRay-Screener"
      (by rw [containerCats_eval]; decide)]
    exact c10_format_eval
  · rw [guessProperties_cat "other" "BluRay-Screener"
      (by rw [containerCats_eval]; decide)]
    exact c10_other_eval

/-- C10 witness: the Screener compound generated for the `VHS` format
entry. -/
theorem c10_format_screener_compounds_witness :
    ∃ e2 ∈ entriesOf "other",
      e2.pattern = "VHS(-?Scr(?:eener)?)" ∧ e2.canonical = "Screener" :=
  c10_format_screener_compounds.1
    ⟨"format", "VHS", "VHS", 10, false⟩
    (by rw [fmtEntries_eq_block]; decide)

/-- C5: for the screenSize category the built qualities rate `1080p`
strictly above `480p` (200 against -100), and the ordering does not depend
on the order in which the screenSize qualities are registered: any
permutation of the screenSize quality table, replayed through
`register_quality` from an empty container, yields the same two scores.
Rating is a pure function of the container, so repeated invocations return
the same value by construction. -/
theorem c5_screen_size_quality_ordering :
    ∀ l : List (String × Int), l.Perm screenSizeQualityTable →
      rateQualityQ
          (l.foldl (fun q kv => registerQualityQ q "screenSize" kv.1 kv.2) [])
          [("screenSize", "1080p")] ["screenSize"] = Except.ok 200 ∧
      rateQualityQ
          (l.foldl (fun q kv => registerQualityQ q "screenSize" kv.1 kv.2) [])
          [("screenSize", "480p")] ["screenSize"] = Except.ok (-100) ∧
      ((-100 : Int) < 200) ∧
      rateQuality [("screenSize", "1080p")] ["screenSize"] =
        Except.ok 200 ∧
      rateQuality [("screenSize", "480p")] ["screenSize"] =
        Except.ok (-100) := by
  intro l hperm
  have hnd : (l.map Prod.fst).Nodup := by
    have h2 := hperm.map Prod.fst
    exact h2.nodup_iff.mpr (by decide)
  have hm1 : ("1080p", (200 : Int)) ∈ l := hperm.mem_iff.mpr (by decide)
  have hm2 : ("480p", (-100 : Int)) ∈ l := hperm.mem_iff.mpr (by decide)
  refine ⟨?_, ?_, by decide, rfl, rfl⟩
  · exact rate_single _ "screenSize" "1080p" 200
      (qLookup_foldl_reg "screenSize" l "1080p" 200 hnd hm1 [])
  · exact rate_single _ "screenSize" "480p" (-100)
      (qLookup_foldl_reg "screenSize" l "480p" (-100) hnd hm2 [])

/-- C5 witness: the quality ordering at the declared registration order
itself. -/
theorem c5_screen_size_quality_ordering_witness :
    rateQualityQ
        (screenSizeQualityTable.foldl
          (fun q kv => registerQualityQ q "screenSize" kv.1 kv.2) [])
        [("screenSize", "1080p")] ["screenSize"] = Except.ok 200 ∧
    rateQualityQ
        (screenSizeQualityTable.foldl
          (fun q kv => registerQualityQ q "screenSize" kv.1 kv.2) [])
        [("screenSize", "480p")] ["screenSize"] = Except.ok (-100) ∧
    ((-100 : Int) < 200) ∧
    rateQuality [("screenSize", "1080p")] ["screenSize"] = Except.ok 200 ∧
    rateQuality [("screenSize", "480p")] ["screenSize"] =
      Except.ok (-100) :=
  c5_screen_size_quality_ordering screenSizeQualityTable (List.Perm.refl _)

/-- C6: `rate_quality` sums the looked-up scores of the named categories
(all categories of the guess when none are named), raises
`UnknownQualityError` (modelled as `Except.error ()`) exactly when an
explicitly requested category carries a guessed value with no registered
score, silently skips a guessed value without score when no categories were
explicitly named, and silently skips a requested category absent from the
guess. -/
theorem c6_rate_quality_contract :
    rateQuality [("format", "BluRay"), ("screenSize", "1080p")] [] =
      Except.ok 300 ∧
    rateQuality [("format", "BluRay"), ("screenSize", "1080p")]
      ["format"] = Except.ok 100 ∧
    rateQuality [("format", "BluRay"), ("screenSize", "1080p")]
      ["screenSize"] = Except.ok 200 ∧
    rateQuality [("format", "NotAKnownForm")] ["format"] =
      Except.error () ∧
    rateQuality [("format", "NotAKnownForm")] [] = Except.ok 0 ∧
    rateQuality [("format", "BluRay")] ["format", "screenSize"] =
      Except.ok 100 :=
  ⟨rfl, rfl, rfl, rfl, rfl, rfl⟩

/-- The other-category part of the guess on `"WStation"`. -/
theorem c7_wstation_eval :
    guessFor "other" "WStation" = [] := by
  unfold guessFor
  rw [buildContainer_eval]
  rfl

/-- The other-category part of the guess on `"xLimited"`. -/
theorem c7_xlimited_eval :
    guessFor "other" "xLimited" = [("other", "Limited", 10)] := by
  unfold guessFor
  rw [buildContainer_eval]
  rfl

/-- C7: the `ws` pattern for WideScreen is registered under the default
strict validator, so the token embedded in the longer alphanumeric word
`"WStation"` produces no `other` guess; the weak validator is carried
exactly by the canonical tokens Limited, Complete, Classic, Unrated, LiNE,
Bonus and Trailer, and it accepts any hit with at least one clean boundary
whose matched length exceeds the configured minimum — e.g. `"xLimited"`
still yields the Limited guess. -/
theorem c7_boundary_validation :
    ((⟨"other", "ws", "WideScreen", 10, false⟩ : PatternEntry) ∈
      buildContainer) ∧
    (guessProperties "WStation").filter (fun g => g.1 = "other") = [] ∧
    ((entriesOf "other").filter (fun e => e.weak)).map
        (fun e => e.canonical) =
      ["Limited", "Complete", "Classic", "Unrated", "LiNE", "Bonus",
       "Trailer"] ∧
    (∀ cs : List Nat, ∀ i j : Nat,
      leftBoundaryOk cs i = true ∨ rightBoundaryOk cs j = true →
      weakMinLen < j - i → weakValidate cs i j = true) ∧
    (guessProperties "xLimited").filter (fun g => g.1 = "other") =
      [("other", "Limited", 10)] := by
  refine ⟨by rw [buildContainer_eval]; decide, ?_,
    by rw [otherEntries_eq_block]; rfl, ?_, ?_⟩
  · rw [guessProperties_cat "other" "WStation"
      (by rw [containerCats_eval]; decide)]
    exact c7_wstation_eval
  · intro cs i j h1 h2
    unfold weakValidate
    exact decide_eq_true (Or.inr ⟨h1, h2⟩)
  · rw [guessProperties_cat "other" "xLimited"
      (by rw [containerCats_eval]; decide)]
    exact c7_xlimited_eval

/-- C7 witness: the weak validator accepts the span of `Limited` inside
`"xLimited"`, whose left boundary is alphanumeric but whose length exceeds
the minimum. -/
theorem c7_boundary_validation_witness :
    weakValidate (lcList "xLimited") 1 8 = true :=
  c7_boundary_validation.2.2.2.1 (lcList "xLimited") 1 8
    (Or.inr (by decide)) (by decide)

/-- C8: registering a quality twice for the same
`(category, canonical_form)` key leaves exactly one entry for the key — no
duplicates accumulate — and its value is the later score (last write wins),
for any prior container state respecting the at-most-one-entry-per-key
invariant. -/
theorem c8_register_quality_upsert :
    ∀ (q : List QEntry) (cat canon : String) (s1 s2 : Int),
      qCount q cat canon ≤ 1 →
      qCount
          (registerQualityQ (registerQualityQ q cat canon s1) cat canon s2)
          cat canon = 1 ∧
      qLookup
          (registerQualityQ (registerQualityQ q cat canon s1) cat canon s2)
          cat canon = some s2 := by
  intro q cat canon s1 s2 h
  have h1 : qCount (registerQualityQ q cat canon s1) cat canon = 1 := by
    rw [qCount_register]
    by_cases ha : q.any (qKey cat canon) = true
    · rw [if_pos ha]
      have := (qCount_pos_iff_any q cat canon).mp ha
      omega
    · rw [if_neg ha]
      have hz : qCount q cat canon = 0 := by
        by_contra hc
        exact ha ((qCount_pos_iff_any q cat canon).mpr
          (Nat.pos_of_ne_zero hc))
      omega
  constructor
  · rw [qCount_register,
      if_pos ((qCount_pos_iff_any _ cat canon).mpr (by omega))]
    exact h1
  · exact qLookup_register_self _ cat canon s2

/-- C8 witness: double registration of a screenSize quality from an empty
container keeps one entry holding the later score. -/
theorem c8_register_quality_upsert_witness :
    qCount
        (registerQualityQ (registerQualityQ [] "screenSize" "480p" (-100))
          "screenSize" "480p" (-90))
        "screenSize" "480p" = 1 ∧
    qLookup
        (registerQualityQ (registerQualityQ [] "screenSize" "480p" (-100))
          "screenSize" "480p" (-90))
        "screenSize" "480p" = some (-90) :=
  c8_register_quality_upsert [] "screenSize" "480p" (-100) (-90) (by decide)
